import Mathlib

set_option maxRecDepth 100000

/-!
Shallow embedding of `scripts/generate_index.py`, a PEP 503 static index
generator.  Python strings are modelled as Lean `String`s; Python's string
comparison (by Unicode code point) is modelled by `pyCharsLt`; Python dicts
holding wheel metadata are modelled by the `Wheel` structure with `Option`
fields (`none` = key absent, `w.get(k, '')` = `Option.getD ""`,
`w[k]` = `KeyError` when `none`); Python's `str.lower` is modelled by the
full Unicode lowercase mapping (`pyLowerTree`, generated from the
Unicode 14.0.0 case mappings that back CPython's `str.lower`, with
`pyLowerTable` the same data flat).  `sorted(..., key=..., reverse=True)` is a
stable descending sort; it is modelled with `List.insertionSort`, which is
stable for the total preorder used here, so it produces the same list.
-/

/-- Python string `<` on code points, on the underlying character lists. -/
def pyCharsLt : List Char → List Char → Bool
  | [], [] => false
  | [], _ :: _ => true
  | _ :: _, [] => false
  | a :: as, b :: bs => if a < b then true else if b < a then false else pyCharsLt as bs

/-- Python string `<` (lexicographic by code point). -/
def pyStrLt (a b : String) : Bool := pyCharsLt a.data b.data

/-- Python comparison of the pairs used as sort keys:
`(a1, a2) < (b1, b2)` iff `a1 < b1` or (`a1 == b1` and `a2 < b2`). -/
def pyPairLt (a b : String × String) : Bool :=
  pyStrLt a.1 b.1 || (a.1 == b.1 && pyStrLt a.2 b.2)

/-- The apostrophe character (escaped by Python's `html.escape`). -/
def apos : Char := Char.ofNat 39

/-- One character's expansion under Python's `html.escape(s)` (`quote=True`):
`&` → `&amp;`, `<` → `&lt;`, `>` → `&gt;`, `"` → `&quot;`, `'` → `&#x27;`.
`html.escape` performs these five replacements in this order; since no
replacement string contains a character replaced later, this equals the
per-character expansion. -/
def escapeChar (c : Char) : String :=
  if c = '&' then "&amp;"
  else if c = '<' then "&lt;"
  else if c = '>' then "&gt;"
  else if c = '"' then "&quot;"
  else if c = apos then "&#x27;"
  else String.singleton c

/-- Python's `html.escape` from the `html` module, as used by the script. -/
def escape (s : String) : String := String.join (s.data.map escapeChar)

/-- A balanced search tree holding, for every Unicode scalar value whose
Python `str.lower()` image differs from itself, the code points of that
image (one character can lower to several: U+0130 maps to [105, 775]).
Generated from the Unicode 14.0.0 case mappings that back CPython's
`str.lower`; `pyLowerTable` below lists the same 1433 entries flat in
ascending key order, and `pyLowerTree_matches_table` checks that the two
representations agree. -/
inductive LowerTree where
  | leaf
  | node (left : LowerTree) (key : Nat) (out : List Nat) (right : LowerTree)

/-- Binary search for a key in a `LowerTree`. -/
def LowerTree.find : LowerTree → Nat → Option (List Nat)
  | LowerTree.leaf, _ => none
  | LowerTree.node l k v r, n =>
    if n < k then l.find n else if k < n then r.find n else some v

/-- `p` holds of every `(key, out)` entry of the tree. -/
def LowerTree.allNodes (p : Nat → List Nat → Bool) : LowerTree → Bool
  | LowerTree.leaf => true
  | LowerTree.node l k v r => p k v && l.allNodes p && r.allNodes p

/-- Number of entries of a `LowerTree`. -/
def LowerTree.size : LowerTree → Nat
  | LowerTree.leaf => 0
  | LowerTree.node l _ _ r => l.size + 1 + r.size

def pyLowerTree1 : LowerTree :=
  (LowerTree.node (LowerTree.node (LowerTree.node (LowerTree.node (LowerTree.node (LowerTree.node (LowerTree.node LowerTree.leaf 65 [97] LowerTree.leaf) 66 [98] LowerTree.leaf) 67 [99] (LowerTree.node (LowerTree.node LowerTree.leaf 68 [100] LowerTree.leaf) 69 [101] LowerTree.leaf)) 70 [102] (LowerTree.node (LowerTree.node (LowerTree.node LowerTree.leaf 71 [103] LowerTree.leaf) 72 [104] LowerTree.leaf) 73 [105] (LowerTree.node (LowerTree.node LowerTree.leaf 74 [106] LowerTree.leaf) 75 [107] LowerTree.leaf))) 76 [108] (LowerTree.node (LowerTree.node (LowerTree.node (LowerTree.node LowerTree.leaf 77 [109] LowerTree.leaf) 78 [110] LowerTree.leaf) 79 [111] (LowerTree.node (LowerTree.node LowerTree.leaf 80 [112] LowerTree.leaf) 81 [113] LowerTree.leaf)) 82 [114] (LowerTree.node (LowerTree.node (LowerTree.node LowerTree.leaf 83 [115] LowerTree.leaf) 84 [116] LowerTree.leaf) 85 [117] (LowerTree.node LowerTree.leaf 86 [118] LowerTree.leaf)))) 87 [119] (LowerTree.node (LowerTree.node (LowerTree.node (LowerTree.node (LowerTree.node LowerTree.leaf 88 [120] LowerTree.leaf) 89 [121] LowerTree.leaf) 90 [122] (LowerTree.node (LowerTree.node LowerTree.leaf 192 [224] LowerTree.leaf) 193 [225] LowerTree.leaf)) 194 [226] (LowerTree.node (LowerTree.node (LowerTree.node LowerTree.leaf 195 [227] LowerTree.leaf) 196 [228] LowerTree.leaf) 197 [229] (LowerTree.node LowerTree.leaf 198 [230] LowerTree.leaf))) 199 [231] (LowerTree.node (LowerTree.node (LowerTree.node (LowerTree.node LowerTree.leaf 200 [232] LowerTree.leaf) 201 [233] LowerTree.leaf) 202 [234] (LowerTree.node (LowerTree.node LowerTree.leaf 203 [235] LowerTree.leaf) 204 [236] LowerTree.leaf)) 205 [237] (LowerTree.node (LowerTree.node (LowerTree.node LowerTree.leaf 206 [238] LowerTree.leaf) 207 [239] LowerTree.leaf) 208 [240] (LowerTree.node LowerTree.leaf 209 [241] LowerTree.leaf))))) 210 [242] (LowerTree.node (LowerTree.node (LowerTree.node (LowerTree.node (LowerTree.node (LowerTree.node LowerTree.leaf 211 [243] LowerTree.leaf) 212 [244] LowerTree.leaf) 213 [245] (LowerTree.node (LowerTree.node LowerTree.leaf 214 [246] LowerTree.leaf) 216 [248] LowerTree.leaf)) 217 [249] (LowerTree.node (LowerTree.node (LowerTree.node LowerTree.leaf 218 [250] LowerTree.leaf) 219 [251] LowerTree.leaf) 220 [252] (LowerTree.node (LowerTree.node LowerTree.leaf 221 [253] LowerTree.leaf) 222 [254] LowerTree.leaf))) 256 [257] (LowerTree.node (LowerTree.node (LowerTree.node (LowerTree.node LowerTree.leaf 258 [259] LowerTree.leaf) 260 [261] LowerTree.leaf) 262 [263] (LowerTree.node (LowerTree.node LowerTree.leaf 264 [265] LowerTree.leaf) 266 [267] LowerTree.leaf)) 268 [269] (LowerTree.node (LowerTree.node (LowerTree.node LowerTree.leaf 270 [271] LowerTree.leaf) 272 [273] LowerTree.leaf) 274 [275] (LowerTree.node LowerTree.leaf 276 [277] LowerTree.leaf)))) 278 [279] (LowerTree.node (LowerTree.node (LowerTree.node (LowerTree.node (LowerTree.node LowerTree.leaf 280 [281] LowerTree.leaf) 282 [283] LowerTree.leaf) 284 [285] (LowerTree.node (LowerTree.node LowerTree.leaf 286 [287] LowerTree.leaf) 288 [289] LowerTree.leaf)) 290 [291] (LowerTree.node (LowerTree.node (LowerTree.node LowerTree.leaf 292 [293] LowerTree.leaf) 294 [295] LowerTree.leaf) 296 [297] (LowerTree.node LowerTree.leaf 298 [299] LowerTree.leaf))) 300 [301] (LowerTree.node (LowerTree.node (LowerTree.node (LowerTree.node LowerTree.leaf 302 [303] LowerTree.leaf) 304 [105, 775] LowerTree.leaf) 306 [307] (LowerTree.node (LowerTree.node LowerTree.leaf 308 [309] LowerTree.leaf) 310 [311] LowerTree.leaf)) 313 [314] (LowerTree.node (LowerTree.node (LowerTree.node LowerTree.leaf 315 [316] LowerTree.leaf) 317 [318] LowerTree.leaf) 319 [320] (LowerTree.node LowerTree.leaf 321 [322] LowerTree.leaf))))))

def pyLowerTree2 : LowerTree :=
  (LowerTree.node (LowerTree.node (LowerTree.node (LowerTree.node (LowerTree.node (LowerTree.node (LowerTree.node LowerTree.leaf 325 [326] LowerTree.leaf) 327 [328] LowerTree.leaf) 330 [331] (LowerTree.node (LowerTree.node LowerTree.leaf 332 [333] LowerTree.leaf) 334 [335] LowerTree.leaf)) 336 [337] (LowerTree.node (LowerTree.node (LowerTree.node LowerTree.leaf 338 [339] LowerTree.leaf) 340 [341] LowerTree.leaf) 342 [343] (LowerTree.node (LowerTree.node LowerTree.leaf 344 [345] LowerTree.leaf) 346 [347] LowerTree.leaf))) 348 [349] (LowerTree.node (LowerTree.node (LowerTree.node (LowerTree.node LowerTree.leaf 350 [351] LowerTree.leaf) 352 [353] LowerTree.leaf) 354 [355] (LowerTree.node (LowerTree.node LowerTree.leaf 356 [357] LowerTree.leaf) 358 [359] LowerTree.leaf)) 360 [361] (LowerTree.node (LowerTree.node (LowerTree.node LowerTree.leaf 362 [363] LowerTree.leaf) 364 [365] LowerTree.leaf) 366 [367] (LowerTree.node LowerTree.leaf 368 [369] LowerTree.leaf)))) 370 [371] (LowerTree.node (LowerTree.node (LowerTree.node (LowerTree.node (LowerTree.node LowerTree.leaf 372 [373] LowerTree.leaf) 374 [375] LowerTree.leaf) 376 [255] (LowerTree.node (LowerTree.node LowerTree.leaf 377 [378] LowerTree.leaf) 379 [380] LowerTree.leaf)) 381 [382] (LowerTree.node (LowerTree.node (LowerTree.node LowerTree.leaf 385 [595] LowerTree.leaf) 386 [387] LowerTree.leaf) 388 [389] (LowerTree.node LowerTree.leaf 390 [596] LowerTree.leaf))) 391 [392] (LowerTree.node (LowerTree.node (LowerTree.node (LowerTree.node LowerTree.leaf 393 [598] LowerTree.leaf) 394 [599] LowerTree.leaf) 395 [396] (LowerTree.node (LowerTree.node LowerTree.leaf 398 [477] LowerTree.leaf) 399 [601] LowerTree.leaf)) 400 [603] (LowerTree.node (LowerTree.node (LowerTree.node LowerTree.leaf 401 [402] LowerTree.leaf) 403 [608] LowerTree.leaf) 404 [611] (LowerTree.node LowerTree.leaf 406 [617] LowerTree.leaf))))) 407 [616] (LowerTree.node (LowerTree.node (LowerTree.node (LowerTree.node (LowerTree.node (LowerTree.node LowerTree.leaf 408 [409] LowerTree.leaf) 412 [623] LowerTree.leaf) 413 [626] (LowerTree.node (LowerTree.node LowerTree.leaf 415 [629] LowerTree.leaf) 416 [417] LowerTree.leaf)) 418 [419] (LowerTree.node (LowerTree.node (LowerTree.node LowerTree.leaf 420 [421] LowerTree.leaf) 422 [640] LowerTree.leaf) 423 [424] (LowerTree.node (LowerTree.node LowerTree.leaf 425 [643] LowerTree.leaf) 428 [429] LowerTree.leaf))) 430 [648] (LowerTree.node (LowerTree.node (LowerTree.node (LowerTree.node LowerTree.leaf 431 [432] LowerTree.leaf) 433 [650] LowerTree.leaf) 434 [651] (LowerTree.node (LowerTree.node LowerTree.leaf 435 [436] LowerTree.leaf) 437 [438] LowerTree.leaf)) 439 [658] (LowerTree.node (LowerTree.node (LowerTree.node LowerTree.leaf 440 [441] LowerTree.leaf) 444 [445] LowerTree.leaf) 452 [454] (LowerTree.node LowerTree.leaf 453 [454] LowerTree.leaf)))) 455 [457] (LowerTree.node (LowerTree.node (LowerTree.node (LowerTree.node (LowerTree.node LowerTree.leaf 456 [457] LowerTree.leaf) 458 [460] LowerTree.leaf) 459 [460] (LowerTree.node (LowerTree.node LowerTree.leaf 461 [462] LowerTree.leaf) 463 [464] LowerTree.leaf)) 465 [466] (LowerTree.node (LowerTree.node (LowerTree.node LowerTree.leaf 467 [468] LowerTree.leaf) 469 [470] LowerTree.leaf) 471 [472] (LowerTree.node LowerTree.leaf 473 [474] LowerTree.leaf))) 475 [476] (LowerTree.node (LowerTree.node (LowerTree.node (LowerTree.node LowerTree.leaf 478 [479] LowerTree.leaf) 480 [481] LowerTree.leaf) 482 [483] (LowerTree.node (LowerTree.node LowerTree.leaf 484 [485] LowerTree.leaf) 486 [487] LowerTree.leaf)) 488 [489] (LowerTree.node (LowerTree.node (LowerTree.node LowerTree.leaf 490 [491] LowerTree.leaf) 492 [493] LowerTree.leaf) 494 [495] (LowerTree.node LowerTree.leaf 497 [499] LowerTree.leaf))))))

def pyLowerTree3 : LowerTree :=
  (LowerTree.node (LowerTree.node (LowerTree.node (LowerTree.node (LowerTree.node (LowerTree.node (LowerTree.node LowerTree.leaf 500 [501] LowerTree.leaf) 502 [405] LowerTree.leaf) 503 [447] (LowerTree.node (LowerTree.node LowerTree.leaf 504 [505] LowerTree.leaf) 506 [507] LowerTree.leaf)) 508 [509] (LowerTree.node (LowerTree.node (LowerTree.node LowerTree.leaf 510 [511] LowerTree.leaf) 512 [513] LowerTree.leaf) 514 [515] (LowerTree.node (LowerTree.node LowerTree.leaf 516 [517] LowerTree.leaf) 518 [519] LowerTree.leaf))) 520 [521] (LowerTree.node (LowerTree.node (LowerTree.node (LowerTree.node LowerTree.leaf 522 [523] LowerTree.leaf) 524 [525] LowerTree.leaf) 526 [527] (LowerTree.node (LowerTree.node LowerTree.leaf 528 [529] LowerTree.leaf) 530 [531] LowerTree.leaf)) 532 [533] (LowerTree.node (LowerTree.node (LowerTree.node LowerTree.leaf 534 [535] LowerTree.leaf) 536 [537] LowerTree.leaf) 538 [539] (LowerTree.node LowerTree.leaf 540 [541] LowerTree.leaf)))) 542 [543] (LowerTree.node (LowerTree.node (LowerTree.node (LowerTree.node (LowerTree.node LowerTree.leaf 544 [414] LowerTree.leaf) 546 [547] LowerTree.leaf) 548 [549] (LowerTree.node (LowerTree.node LowerTree.leaf 550 [551] LowerTree.leaf) 552 [553] LowerTree.leaf)) 554 [555] (LowerTree.node (LowerTree.node (LowerTree.node LowerTree.leaf 556 [557] LowerTree.leaf) 558 [559] LowerTree.leaf) 560 [561] (LowerTree.node LowerTree.leaf 562 [563] LowerTree.leaf))) 570 [11365] (LowerTree.node (LowerTree.node (LowerTree.node (LowerTree.node LowerTree.leaf 571 [572] LowerTree.leaf) 573 [410] LowerTree.leaf) 574 [11366] (LowerTree.node (LowerTree.node LowerTree.leaf 577 [578] LowerTree.leaf) 579 [384] LowerTree.leaf)) 580 [649] (LowerTree.node (LowerTree.node (LowerTree.node LowerTree.leaf 581 [652] LowerTree.leaf) 582 [583] LowerTree.leaf) 584 [585] (LowerTree.node LowerTree.leaf 586 [587] LowerTree.leaf))))) 588 [589] (LowerTree.node (LowerTree.node (LowerTree.node (LowerTree.node (LowerTree.node (LowerTree.node LowerTree.leaf 590 [591] LowerTree.leaf) 880 [881] LowerTree.leaf) 882 [883] (LowerTree.node (LowerTree.node LowerTree.leaf 886 [887] LowerTree.leaf) 895 [1011] LowerTree.leaf)) 902 [940] (LowerTree.node (LowerTree.node (LowerTree.node LowerTree.leaf 904 [941] LowerTree.leaf) 905 [942] LowerTree.leaf) 906 [943] (LowerTree.node (LowerTree.node LowerTree.leaf 908 [972] LowerTree.leaf) 910 [973] LowerTree.leaf))) 911 [974] (LowerTree.node (LowerTree.node (LowerTree.node (LowerTree.node LowerTree.leaf 913 [945] LowerTree.leaf) 914 [946] LowerTree.leaf) 915 [947] (LowerTree.node (LowerTree.node LowerTree.leaf 916 [948] LowerTree.leaf) 917 [949] LowerTree.leaf)) 918 [950] (LowerTree.node (LowerTree.node (LowerTree.node LowerTree.leaf 919 [951] LowerTree.leaf) 920 [952] LowerTree.leaf) 921 [953] (LowerTree.node LowerTree.leaf 922 [954] LowerTree.leaf)))) 923 [955] (LowerTree.node (LowerTree.node (LowerTree.node (LowerTree.node (LowerTree.node LowerTree.leaf 924 [956] LowerTree.leaf) 925 [957] LowerTree.leaf) 926 [958] (LowerTree.node (LowerTree.node LowerTree.leaf 927 [959] LowerTree.leaf) 928 [960] LowerTree.leaf)) 929 [961] (LowerTree.node (LowerTree.node (LowerTree.node LowerTree.leaf 931 [963] LowerTree.leaf) 932 [964] LowerTree.leaf) 933 [965] (LowerTree.node LowerTree.leaf 934 [966] LowerTree.leaf))) 935 [967] (LowerTree.node (LowerTree.node (LowerTree.node (LowerTree.node LowerTree.leaf 936 [968] LowerTree.leaf) 937 [969] LowerTree.leaf) 938 [970] (LowerTree.node (LowerTree.node LowerTree.leaf 939 [971] LowerTree.leaf) 975 [983] LowerTree.leaf)) 984 [985] (LowerTree.node (LowerTree.node (LowerTree.node LowerTree.leaf 986 [987] LowerTree.leaf) 988 [989] LowerTree.leaf) 990 [991] (LowerTree.node LowerTree.leaf 992 [993] LowerTree.leaf))))))

def pyLowerTree4 : LowerTree :=
  (LowerTree.node (LowerTree.node (LowerTree.node (LowerTree.node (LowerTree.node (LowerTree.node (LowerTree.node LowerTree.leaf 996 [997] LowerTree.leaf) 998 [999] LowerTree.leaf) 1000 [1001] (LowerTree.node (LowerTree.node LowerTree.leaf 1002 [1003] LowerTree.leaf) 1004 [1005] LowerTree.leaf)) 1006 [1007] (LowerTree.node (LowerTree.node (LowerTree.node LowerTree.leaf 1012 [952] LowerTree.leaf) 1015 [1016] LowerTree.leaf) 1017 [1010] (LowerTree.node (LowerTree.node LowerTree.leaf 1018 [1019] LowerTree.leaf) 1021 [891] LowerTree.leaf))) 1022 [892] (LowerTree.node (LowerTree.node (LowerTree.node (LowerTree.node LowerTree.leaf 1023 [893] LowerTree.leaf) 1024 [1104] LowerTree.leaf) 1025 [1105] (LowerTree.node (LowerTree.node LowerTree.leaf 1026 [1106] LowerTree.leaf) 1027 [1107] LowerTree.leaf)) 1028 [1108] (LowerTree.node (LowerTree.node (LowerTree.node LowerTree.leaf 1029 [1109] LowerTree.leaf) 1030 [1110] LowerTree.leaf) 1031 [1111] (LowerTree.node LowerTree.leaf 1032 [1112] LowerTree.leaf)))) 1033 [1113] (LowerTree.node (LowerTree.node (LowerTree.node (LowerTree.node (LowerTree.node LowerTree.leaf 1034 [1114] LowerTree.leaf) 1035 [1115] LowerTree.leaf) 1036 [1116] (LowerTree.node (LowerTree.node LowerTree.leaf 1037 [1117] LowerTree.leaf) 1038 [1118] LowerTree.leaf)) 1039 [1119] (LowerTree.node (LowerTree.node (LowerTree.node LowerTree.leaf 1040 [1072] LowerTree.leaf) 1041 [1073] LowerTree.leaf) 1042 [1074] (LowerTree.node LowerTree.leaf 1043 [1075] LowerTree.leaf))) 1044 [1076] (LowerTree.node (LowerTree.node (LowerTree.node (LowerTree.node LowerTree.leaf 1045 [1077] LowerTree.leaf) 1046 [1078] LowerTree.leaf) 1047 [1079] (LowerTree.node (LowerTree.node LowerTree.leaf 1048 [1080] LowerTree.leaf) 1049 [1081] LowerTree.leaf)) 1050 [1082] (LowerTree.node (LowerTree.node (LowerTree.node LowerTree.leaf 1051 [1083] LowerTree.leaf) 1052 [1084] LowerTree.leaf) 1053 [1085] (LowerTree.node LowerTree.leaf 1054 [1086] LowerTree.leaf))))) 1055 [1087] (LowerTree.node (LowerTree.node (LowerTree.node (LowerTree.node (LowerTree.node (LowerTree.node LowerTree.leaf 1056 [1088] LowerTree.leaf) 1057 [1089] LowerTree.leaf) 1058 [1090] (LowerTree.node (LowerTree.node LowerTree.leaf 1059 [1091] LowerTree.leaf) 1060 [1092] LowerTree.leaf)) 1061 [1093] (LowerTree.node (LowerTree.node (LowerTree.node LowerTree.leaf 1062 [1094] LowerTree.leaf) 1063 [1095] LowerTree.leaf) 1064 [1096] (LowerTree.node LowerTree.leaf 1065 [1097] LowerTree.leaf))) 1066 [1098] (LowerTree.node (LowerTree.node (LowerTree.node (LowerTree.node LowerTree.leaf 1067 [1099] LowerTree.leaf) 1068 [1100] LowerTree.leaf) 1069 [1101] (LowerTree.node (LowerTree.node LowerTree.leaf 1070 [1102] LowerTree.leaf) 1071 [1103] LowerTree.leaf)) 1120 [1121] (LowerTree.node (LowerTree.node (LowerTree.node LowerTree.leaf 1122 [1123] LowerTree.leaf) 1124 [1125] LowerTree.leaf) 1126 [1127] (LowerTree.node LowerTree.leaf 1128 [1129] LowerTree.leaf)))) 1130 [1131] (LowerTree.node (LowerTree.node (LowerTree.node (LowerTree.node (LowerTree.node LowerTree.leaf 1132 [1133] LowerTree.leaf) 1134 [1135] LowerTree.leaf) 1136 [1137] (LowerTree.node (LowerTree.node LowerTree.leaf 1138 [1139] LowerTree.leaf) 1140 [1141] LowerTree.leaf)) 1142 [1143] (LowerTree.node (LowerTree.node (LowerTree.node LowerTree.leaf 1144 [1145] LowerTree.leaf) 1146 [1147] LowerTree.leaf) 1148 [1149] (LowerTree.node LowerTree.leaf 1150 [1151] LowerTree.leaf))) 1152 [1153] (LowerTree.node (LowerTree.node (LowerTree.node (LowerTree.node LowerTree.leaf 1162 [1163] LowerTree.leaf) 1164 [1165] LowerTree.leaf) 1166 [1167] (LowerTree.node (LowerTree.node LowerTree.leaf 1168 [1169] LowerTree.leaf) 1170 [1171] LowerTree.leaf)) 1172 [1173] (LowerTree.node (LowerTree.node (LowerTree.node LowerTree.leaf 1174 [1175] LowerTree.leaf) 1176 [1177] LowerTree.leaf) 1178 [1179] (LowerTree.node LowerTree.leaf 1180 [1181] LowerTree.leaf))))))

def pyLowerTree5 : LowerTree :=
  (LowerTree.node (LowerTree.node (LowerTree.node (LowerTree.node (LowerTree.node (LowerTree.node (LowerTree.node LowerTree.leaf 1184 [1185] LowerTree.leaf) 1186 [1187] LowerTree.leaf) 1188 [1189] (LowerTree.node (LowerTree.node LowerTree.leaf 1190 [1191] LowerTree.leaf) 1192 [1193] LowerTree.leaf)) 1194 [1195] (LowerTree.node (LowerTree.node (LowerTree.node LowerTree.leaf 1196 [1197] LowerTree.leaf) 1198 [1199] LowerTree.leaf) 1200 [1201] (LowerTree.node (LowerTree.node LowerTree.leaf 1202 [1203] LowerTree.leaf) 1204 [1205] LowerTree.leaf))) 1206 [1207] (LowerTree.node (LowerTree.node (LowerTree.node (LowerTree.node LowerTree.leaf 1208 [1209] LowerTree.leaf) 1210 [1211] LowerTree.leaf) 1212 [1213] (LowerTree.node (LowerTree.node LowerTree.leaf 1214 [1215] LowerTree.leaf) 1216 [1231] LowerTree.leaf)) 1217 [1218] (LowerTree.node (LowerTree.node (LowerTree.node LowerTree.leaf 1219 [1220] LowerTree.leaf) 1221 [1222] LowerTree.leaf) 1223 [1224] (LowerTree.node LowerTree.leaf 1225 [1226] LowerTree.leaf)))) 1227 [1228] (LowerTree.node (LowerTree.node (LowerTree.node (LowerTree.node (LowerTree.node LowerTree.leaf 1229 [1230] LowerTree.leaf) 1232 [1233] LowerTree.leaf) 1234 [1235] (LowerTree.node (LowerTree.node LowerTree.leaf 1236 [1237] LowerTree.leaf) 1238 [1239] LowerTree.leaf)) 1240 [1241] (LowerTree.node (LowerTree.node (LowerTree.node LowerTree.leaf 1242 [1243] LowerTree.leaf) 1244 [1245] LowerTree.leaf) 1246 [1247] (LowerTree.node LowerTree.leaf 1248 [1249] LowerTree.leaf))) 1250 [1251] (LowerTree.node (LowerTree.node (LowerTree.node (LowerTree.node LowerTree.leaf 1252 [1253] LowerTree.leaf) 1254 [1255] LowerTree.leaf) 1256 [1257] (LowerTree.node (LowerTree.node LowerTree.leaf 1258 [1259] LowerTree.leaf) 1260 [1261] LowerTree.leaf)) 1262 [1263] (LowerTree.node (LowerTree.node (LowerTree.node LowerTree.leaf 1264 [1265] LowerTree.leaf) 1266 [1267] LowerTree.leaf) 1268 [1269] (LowerTree.node LowerTree.leaf 1270 [1271] LowerTree.leaf))))) 1272 [1273] (LowerTree.node (LowerTree.node (LowerTree.node (LowerTree.node (LowerTree.node (LowerTree.node LowerTree.leaf 1274 [1275] LowerTree.leaf) 1276 [1277] LowerTree.leaf) 1278 [1279] (LowerTree.node (LowerTree.node LowerTree.leaf 1280 [1281] LowerTree.leaf) 1282 [1283] LowerTree.leaf)) 1284 [1285] (LowerTree.node (LowerTree.node (LowerTree.node LowerTree.leaf 1286 [1287] LowerTree.leaf) 1288 [1289] LowerTree.leaf) 1290 [1291] (LowerTree.node (LowerTree.node LowerTree.leaf 1292 [1293] LowerTree.leaf) 1294 [1295] LowerTree.leaf))) 1296 [1297] (LowerTree.node (LowerTree.node (LowerTree.node (LowerTree.node LowerTree.leaf 1298 [1299] LowerTree.leaf) 1300 [1301] LowerTree.leaf) 1302 [1303] (LowerTree.node (LowerTree.node LowerTree.leaf 1304 [1305] LowerTree.leaf) 1306 [1307] LowerTree.leaf)) 1308 [1309] (LowerTree.node (LowerTree.node (LowerTree.node LowerTree.leaf 1310 [1311] LowerTree.leaf) 1312 [1313] LowerTree.leaf) 1314 [1315] (LowerTree.node LowerTree.leaf 1316 [1317] LowerTree.leaf)))) 1318 [1319] (LowerTree.node (LowerTree.node (LowerTree.node (LowerTree.node (LowerTree.node LowerTree.leaf 1320 [1321] LowerTree.leaf) 1322 [1323] LowerTree.leaf) 1324 [1325] (LowerTree.node (LowerTree.node LowerTree.leaf 1326 [1327] LowerTree.leaf) 1329 [1377] LowerTree.leaf)) 1330 [1378] (LowerTree.node (LowerTree.node (LowerTree.node LowerTree.leaf 1331 [1379] LowerTree.leaf) 1332 [1380] LowerTree.leaf) 1333 [1381] (LowerTree.node LowerTree.leaf 1334 [1382] LowerTree.leaf))) 1335 [1383] (LowerTree.node (LowerTree.node (LowerTree.node (LowerTree.node LowerTree.leaf 1336 [1384] LowerTree.leaf) 1337 [1385] LowerTree.leaf) 1338 [1386] (LowerTree.node (LowerTree.node LowerTree.leaf 1339 [1387] LowerTree.leaf) 1340 [1388] LowerTree.leaf)) 1341 [1389] (LowerTree.node (LowerTree.node (LowerTree.node LowerTree.leaf 1342 [1390] LowerTree.leaf) 1343 [1391] LowerTree.leaf) 1344 [1392] (LowerTree.node LowerTree.leaf 1345 [1393] LowerTree.leaf))))))

def pyLowerTree6 : LowerTree :=
  (LowerTree.node (LowerTree.node (LowerTree.node (LowerTree.node (LowerTree.node (LowerTree.node (LowerTree.node LowerTree.leaf 1347 [1395] LowerTree.leaf) 1348 [1396] LowerTree.leaf) 1349 [1397] (LowerTree.node (LowerTree.node LowerTree.leaf 1350 [1398] LowerTree.leaf) 1351 [1399] LowerTree.leaf)) 1352 [1400] (LowerTree.node (LowerTree.node (LowerTree.node LowerTree.leaf 1353 [1401] LowerTree.leaf) 1354 [1402] LowerTree.leaf) 1355 [1403] (LowerTree.node (LowerTree.node LowerTree.leaf 1356 [1404] LowerTree.leaf) 1357 [1405] LowerTree.leaf))) 1358 [1406] (LowerTree.node (LowerTree.node (LowerTree.node (LowerTree.node LowerTree.leaf 1359 [1407] LowerTree.leaf) 1360 [1408] LowerTree.leaf) 1361 [1409] (LowerTree.node (LowerTree.node LowerTree.leaf 1362 [1410] LowerTree.leaf) 1363 [1411] LowerTree.leaf)) 1364 [1412] (LowerTree.node (LowerTree.node (LowerTree.node LowerTree.leaf 1365 [1413] LowerTree.leaf) 1366 [1414] LowerTree.leaf) 4256 [11520] (LowerTree.node LowerTree.leaf 4257 [11521] LowerTree.leaf)))) 4258 [11522] (LowerTree.node (LowerTree.node (LowerTree.node (LowerTree.node (LowerTree.node LowerTree.leaf 4259 [11523] LowerTree.leaf) 4260 [11524] LowerTree.leaf) 4261 [11525] (LowerTree.node (LowerTree.node LowerTree.leaf 4262 [11526] LowerTree.leaf) 4263 [11527] LowerTree.leaf)) 4264 [11528] (LowerTree.node (LowerTree.node (LowerTree.node LowerTree.leaf 4265 [11529] LowerTree.leaf) 4266 [11530] LowerTree.leaf) 4267 [11531] (LowerTree.node LowerTree.leaf 4268 [11532] LowerTree.leaf))) 4269 [11533] (LowerTree.node (LowerTree.node (LowerTree.node (LowerTree.node LowerTree.leaf 4270 [11534] LowerTree.leaf) 4271 [11535] LowerTree.leaf) 4272 [11536] (LowerTree.node (LowerTree.node LowerTree.leaf 4273 [11537] LowerTree.leaf) 4274 [11538] LowerTree.leaf)) 4275 [11539] (LowerTree.node (LowerTree.node (LowerTree.node LowerTree.leaf 4276 [11540] LowerTree.leaf) 4277 [11541] LowerTree.leaf) 4278 [11542] (LowerTree.node LowerTree.leaf 4279 [11543] LowerTree.leaf))))) 4280 [11544] (LowerTree.node (LowerTree.node (LowerTree.node (LowerTree.node (LowerTree.node (LowerTree.node LowerTree.leaf 4281 [11545] LowerTree.leaf) 4282 [11546] LowerTree.leaf) 4283 [11547] (LowerTree.node (LowerTree.node LowerTree.leaf 4284 [11548] LowerTree.leaf) 4285 [11549] LowerTree.leaf)) 4286 [11550] (LowerTree.node (LowerTree.node (LowerTree.node LowerTree.leaf 4287 [11551] LowerTree.leaf) 4288 [11552] LowerTree.leaf) 4289 [11553] (LowerTree.node LowerTree.leaf 4290 [11554] LowerTree.leaf))) 4291 [11555] (LowerTree.node (LowerTree.node (LowerTree.node (LowerTree.node LowerTree.leaf 4292 [11556] LowerTree.leaf) 4293 [11557] LowerTree.leaf) 4295 [11559] (LowerTree.node (LowerTree.node LowerTree.leaf 4301 [11565] LowerTree.leaf) 5024 [43888] LowerTree.leaf)) 5025 [43889] (LowerTree.node (LowerTree.node (LowerTree.node LowerTree.leaf 5026 [43890] LowerTree.leaf) 5027 [43891] LowerTree.leaf) 5028 [43892] (LowerTree.node LowerTree.leaf 5029 [43893] LowerTree.leaf)))) 5030 [43894] (LowerTree.node (LowerTree.node (LowerTree.node (LowerTree.node (LowerTree.node LowerTree.leaf 5031 [43895] LowerTree.leaf) 5032 [43896] LowerTree.leaf) 5033 [43897] (LowerTree.node (LowerTree.node LowerTree.leaf 5034 [43898] LowerTree.leaf) 5035 [43899] LowerTree.leaf)) 5036 [43900] (LowerTree.node (LowerTree.node (LowerTree.node LowerTree.leaf 5037 [43901] LowerTree.leaf) 5038 [43902] LowerTree.leaf) 5039 [43903] (LowerTree.node LowerTree.leaf 5040 [43904] LowerTree.leaf))) 5041 [43905] (LowerTree.node (LowerTree.node (LowerTree.node (LowerTree.node LowerTree.leaf 5042 [43906] LowerTree.leaf) 5043 [43907] LowerTree.leaf) 5044 [43908] (LowerTree.node (LowerTree.node LowerTree.leaf 5045 [43909] LowerTree.leaf) 5046 [43910] LowerTree.leaf)) 5047 [43911] (LowerTree.node (LowerTree.node (LowerTree.node LowerTree.leaf 5048 [43912] LowerTree.leaf) 5049 [43913] LowerTree.leaf) 5050 [43914] (LowerTree.node LowerTree.leaf 5051 [43915] LowerTree.leaf))))))

def pyLowerTree7 : LowerTree :=
  (LowerTree.node (LowerTree.node (LowerTree.node (LowerTree.node (LowerTree.node (LowerTree.node (LowerTree.node LowerTree.leaf 5053 [43917] LowerTree.leaf) 5054 [43918] LowerTree.leaf) 5055 [43919] (LowerTree.node (LowerTree.node LowerTree.leaf 5056 [43920] LowerTree.leaf) 5057 [43921] LowerTree.leaf)) 5058 [43922] (LowerTree.node (LowerTree.node (LowerTree.node LowerTree.leaf 5059 [43923] LowerTree.leaf) 5060 [43924] LowerTree.leaf) 5061 [43925] (LowerTree.node (LowerTree.node LowerTree.leaf 5062 [43926] LowerTree.leaf) 5063 [43927] LowerTree.leaf))) 5064 [43928] (LowerTree.node (LowerTree.node (LowerTree.node (LowerTree.node LowerTree.leaf 5065 [43929] LowerTree.leaf) 5066 [43930] LowerTree.leaf) 5067 [43931] (LowerTree.node (LowerTree.node LowerTree.leaf 5068 [43932] LowerTree.leaf) 5069 [43933] LowerTree.leaf)) 5070 [43934] (LowerTree.node (LowerTree.node (LowerTree.node LowerTree.leaf 5071 [43935] LowerTree.leaf) 5072 [43936] LowerTree.leaf) 5073 [43937] (LowerTree.node LowerTree.leaf 5074 [43938] LowerTree.leaf)))) 5075 [43939] (LowerTree.node (LowerTree.node (LowerTree.node (LowerTree.node (LowerTree.node LowerTree.leaf 5076 [43940] LowerTree.leaf) 5077 [43941] LowerTree.leaf) 5078 [43942] (LowerTree.node (LowerTree.node LowerTree.leaf 5079 [43943] LowerTree.leaf) 5080 [43944] LowerTree.leaf)) 5081 [43945] (LowerTree.node (LowerTree.node (LowerTree.node LowerTree.leaf 5082 [43946] LowerTree.leaf) 5083 [43947] LowerTree.leaf) 5084 [43948] (LowerTree.node LowerTree.leaf 5085 [43949] LowerTree.leaf))) 5086 [43950] (LowerTree.node (LowerTree.node (LowerTree.node (LowerTree.node LowerTree.leaf 5087 [43951] LowerTree.leaf) 5088 [43952] LowerTree.leaf) 5089 [43953] (LowerTree.node (LowerTree.node LowerTree.leaf 5090 [43954] LowerTree.leaf) 5091 [43955] LowerTree.leaf)) 5092 [43956] (LowerTree.node (LowerTree.node (LowerTree.node LowerTree.leaf 5093 [43957] LowerTree.leaf) 5094 [43958] LowerTree.leaf) 5095 [43959] (LowerTree.node LowerTree.leaf 5096 [43960] LowerTree.leaf))))) 5097 [43961] (LowerTree.node (LowerTree.node (LowerTree.node (LowerTree.node (LowerTree.node (LowerTree.node LowerTree.leaf 5098 [43962] LowerTree.leaf) 5099 [43963] LowerTree.leaf) 5100 [43964] (LowerTree.node (LowerTree.node LowerTree.leaf 5101 [43965] LowerTree.leaf) 5102 [43966] LowerTree.leaf)) 5103 [43967] (LowerTree.node (LowerTree.node (LowerTree.node LowerTree.leaf 5104 [5112] LowerTree.leaf) 5105 [5113] LowerTree.leaf) 5106 [5114] (LowerTree.node (LowerTree.node LowerTree.leaf 5107 [5115] LowerTree.leaf) 5108 [5116] LowerTree.leaf))) 5109 [5117] (LowerTree.node (LowerTree.node (LowerTree.node (LowerTree.node LowerTree.leaf 7312 [4304] LowerTree.leaf) 7313 [4305] LowerTree.leaf) 7314 [4306] (LowerTree.node (LowerTree.node LowerTree.leaf 7315 [4307] LowerTree.leaf) 7316 [4308] LowerTree.leaf)) 7317 [4309] (LowerTree.node (LowerTree.node (LowerTree.node LowerTree.leaf 7318 [4310] LowerTree.leaf) 7319 [4311] LowerTree.leaf) 7320 [4312] (LowerTree.node LowerTree.leaf 7321 [4313] LowerTree.leaf)))) 7322 [4314] (LowerTree.node (LowerTree.node (LowerTree.node (LowerTree.node (LowerTree.node LowerTree.leaf 7323 [4315] LowerTree.leaf) 7324 [4316] LowerTree.leaf) 7325 [4317] (LowerTree.node (LowerTree.node LowerTree.leaf 7326 [4318] LowerTree.leaf) 7327 [4319] LowerTree.leaf)) 7328 [4320] (LowerTree.node (LowerTree.node (LowerTree.node LowerTree.leaf 7329 [4321] LowerTree.leaf) 7330 [4322] LowerTree.leaf) 7331 [4323] (LowerTree.node LowerTree.leaf 7332 [4324] LowerTree.leaf))) 7333 [4325] (LowerTree.node (LowerTree.node (LowerTree.node (LowerTree.node LowerTree.leaf 7334 [4326] LowerTree.leaf) 7335 [4327] LowerTree.leaf) 7336 [4328] (LowerTree.node (LowerTree.node LowerTree.leaf 7337 [4329] LowerTree.leaf) 7338 [4330] LowerTree.leaf)) 7339 [4331] (LowerTree.node (LowerTree.node (LowerTree.node LowerTree.leaf 7340 [4332] LowerTree.leaf) 7341 [4333] LowerTree.leaf) 7342 [4334] (LowerTree.node LowerTree.leaf 7343 [4335] LowerTree.leaf))))))

def pyLowerTree8 : LowerTree :=
  (LowerTree.node (LowerTree.node (LowerTree.node (LowerTree.node (LowerTree.node (LowerTree.node (LowerTree.node LowerTree.leaf 7345 [4337] LowerTree.leaf) 7346 [4338] LowerTree.leaf) 7347 [4339] (LowerTree.node (LowerTree.node LowerTree.leaf 7348 [4340] LowerTree.leaf) 7349 [4341] LowerTree.leaf)) 7350 [4342] (LowerTree.node (LowerTree.node (LowerTree.node LowerTree.leaf 7351 [4343] LowerTree.leaf) 7352 [4344] LowerTree.leaf) 7353 [4345] (LowerTree.node (LowerTree.node LowerTree.leaf 7354 [4346] LowerTree.leaf) 7357 [4349] LowerTree.leaf))) 7358 [4350] (LowerTree.node (LowerTree.node (LowerTree.node (LowerTree.node LowerTree.leaf 7359 [4351] LowerTree.leaf) 7680 [7681] LowerTree.leaf) 7682 [7683] (LowerTree.node (LowerTree.node LowerTree.leaf 7684 [7685] LowerTree.leaf) 7686 [7687] LowerTree.leaf)) 7688 [7689] (LowerTree.node (LowerTree.node (LowerTree.node LowerTree.leaf 7690 [7691] LowerTree.leaf) 7692 [7693] LowerTree.leaf) 7694 [7695] (LowerTree.node LowerTree.leaf 7696 [7697] LowerTree.leaf)))) 7698 [7699] (LowerTree.node (LowerTree.node (LowerTree.node (LowerTree.node (LowerTree.node LowerTree.leaf 7700 [7701] LowerTree.leaf) 7702 [7703] LowerTree.leaf) 7704 [7705] (LowerTree.node (LowerTree.node LowerTree.leaf 7706 [7707] LowerTree.leaf) 7708 [7709] LowerTree.leaf)) 7710 [7711] (LowerTree.node (LowerTree.node (LowerTree.node LowerTree.leaf 7712 [7713] LowerTree.leaf) 7714 [7715] LowerTree.leaf) 7716 [7717] (LowerTree.node LowerTree.leaf 7718 [7719] LowerTree.leaf))) 7720 [7721] (LowerTree.node (LowerTree.node (LowerTree.node (LowerTree.node LowerTree.leaf 7722 [7723] LowerTree.leaf) 7724 [7725] LowerTree.leaf) 7726 [7727] (LowerTree.node (LowerTree.node LowerTree.leaf 7728 [7729] LowerTree.leaf) 7730 [7731] LowerTree.leaf)) 7732 [7733] (LowerTree.node (LowerTree.node (LowerTree.node LowerTree.leaf 7734 [7735] LowerTree.leaf) 7736 [7737] LowerTree.leaf) 7738 [7739] (LowerTree.node LowerTree.leaf 7740 [7741] LowerTree.leaf))))) 7742 [7743] (LowerTree.node (LowerTree.node (LowerTree.node (LowerTree.node (LowerTree.node (LowerTree.node LowerTree.leaf 7744 [7745] LowerTree.leaf) 7746 [7747] LowerTree.leaf) 7748 [7749] (LowerTree.node (LowerTree.node LowerTree.leaf 7750 [7751] LowerTree.leaf) 7752 [7753] LowerTree.leaf)) 7754 [7755] (LowerTree.node (LowerTree.node (LowerTree.node LowerTree.leaf 7756 [7757] LowerTree.leaf) 7758 [7759] LowerTree.leaf) 7760 [7761] (LowerTree.node LowerTree.leaf 7762 [7763] LowerTree.leaf))) 7764 [7765] (LowerTree.node (LowerTree.node (LowerTree.node (LowerTree.node LowerTree.leaf 7766 [7767] LowerTree.leaf) 7768 [7769] LowerTree.leaf) 7770 [7771] (LowerTree.node (LowerTree.node LowerTree.leaf 7772 [7773] LowerTree.leaf) 7774 [7775] LowerTree.leaf)) 7776 [7777] (LowerTree.node (LowerTree.node (LowerTree.node LowerTree.leaf 7778 [7779] LowerTree.leaf) 7780 [7781] LowerTree.leaf) 7782 [7783] (LowerTree.node LowerTree.leaf 7784 [7785] LowerTree.leaf)))) 7786 [7787] (LowerTree.node (LowerTree.node (LowerTree.node (LowerTree.node (LowerTree.node LowerTree.leaf 7788 [7789] LowerTree.leaf) 7790 [7791] LowerTree.leaf) 7792 [7793] (LowerTree.node (LowerTree.node LowerTree.leaf 7794 [7795] LowerTree.leaf) 7796 [7797] LowerTree.leaf)) 7798 [7799] (LowerTree.node (LowerTree.node (LowerTree.node LowerTree.leaf 7800 [7801] LowerTree.leaf) 7802 [7803] LowerTree.leaf) 7804 [7805] (LowerTree.node LowerTree.leaf 7806 [7807] LowerTree.leaf))) 7808 [7809] (LowerTree.node (LowerTree.node (LowerTree.node (LowerTree.node LowerTree.leaf 7810 [7811] LowerTree.leaf) 7812 [7813] LowerTree.leaf) 7814 [7815] (LowerTree.node (LowerTree.node LowerTree.leaf 7816 [7817] LowerTree.leaf) 7818 [7819] LowerTree.leaf)) 7820 [7821] (LowerTree.node (LowerTree.node (LowerTree.node LowerTree.leaf 7822 [7823] LowerTree.leaf) 7824 [7825] LowerTree.leaf) 7826 [7827] (LowerTree.node LowerTree.leaf 7828 [7829] LowerTree.leaf))))))

def pyLowerTree9 : LowerTree :=
  (LowerTree.node (LowerTree.node (LowerTree.node (LowerTree.node (LowerTree.node (LowerTree.node (LowerTree.node LowerTree.leaf 7840 [7841] LowerTree.leaf) 7842 [7843] LowerTree.leaf) 7844 [7845] (LowerTree.node (LowerTree.node LowerTree.leaf 7846 [7847] LowerTree.leaf) 7848 [7849] LowerTree.leaf)) 7850 [7851] (LowerTree.node (LowerTree.node (LowerTree.node LowerTree.leaf 7852 [7853] LowerTree.leaf) 7854 [7855] LowerTree.leaf) 7856 [7857] (LowerTree.node (LowerTree.node LowerTree.leaf 7858 [7859] LowerTree.leaf) 7860 [7861] LowerTree.leaf))) 7862 [7863] (LowerTree.node (LowerTree.node (LowerTree.node (LowerTree.node LowerTree.leaf 7864 [7865] LowerTree.leaf) 7866 [7867] LowerTree.leaf) 7868 [7869] (LowerTree.node (LowerTree.node LowerTree.leaf 7870 [7871] LowerTree.leaf) 7872 [7873] LowerTree.leaf)) 7874 [7875] (LowerTree.node (LowerTree.node (LowerTree.node LowerTree.leaf 7876 [7877] LowerTree.leaf) 7878 [7879] LowerTree.leaf) 7880 [7881] (LowerTree.node LowerTree.leaf 7882 [7883] LowerTree.leaf)))) 7884 [7885] (LowerTree.node (LowerTree.node (LowerTree.node (LowerTree.node (LowerTree.node LowerTree.leaf 7886 [7887] LowerTree.leaf) 7888 [7889] LowerTree.leaf) 7890 [7891] (LowerTree.node (LowerTree.node LowerTree.leaf 7892 [7893] LowerTree.leaf) 7894 [7895] LowerTree.leaf)) 7896 [7897] (LowerTree.node (LowerTree.node (LowerTree.node LowerTree.leaf 7898 [7899] LowerTree.leaf) 7900 [7901] LowerTree.leaf) 7902 [7903] (LowerTree.node LowerTree.leaf 7904 [7905] LowerTree.leaf))) 7906 [7907] (LowerTree.node (LowerTree.node (LowerTree.node (LowerTree.node LowerTree.leaf 7908 [7909] LowerTree.leaf) 7910 [7911] LowerTree.leaf) 7912 [7913] (LowerTree.node (LowerTree.node LowerTree.leaf 7914 [7915] LowerTree.leaf) 7916 [7917] LowerTree.leaf)) 7918 [7919] (LowerTree.node (LowerTree.node (LowerTree.node LowerTree.leaf 7920 [7921] LowerTree.leaf) 7922 [7923] LowerTree.leaf) 7924 [7925] (LowerTree.node LowerTree.leaf 7926 [7927] LowerTree.leaf))))) 7928 [7929] (LowerTree.node (LowerTree.node (LowerTree.node (LowerTree.node (LowerTree.node (LowerTree.node LowerTree.leaf 7930 [7931] LowerTree.leaf) 7932 [7933] LowerTree.leaf) 7934 [7935] (LowerTree.node (LowerTree.node LowerTree.leaf 7944 [7936] LowerTree.leaf) 7945 [7937] LowerTree.leaf)) 7946 [7938] (LowerTree.node (LowerTree.node (LowerTree.node LowerTree.leaf 7947 [7939] LowerTree.leaf) 7948 [7940] LowerTree.leaf) 7949 [7941] (LowerTree.node (LowerTree.node LowerTree.leaf 7950 [7942] LowerTree.leaf) 7951 [7943] LowerTree.leaf))) 7960 [7952] (LowerTree.node (LowerTree.node (LowerTree.node (LowerTree.node LowerTree.leaf 7961 [7953] LowerTree.leaf) 7962 [7954] LowerTree.leaf) 7963 [7955] (LowerTree.node (LowerTree.node LowerTree.leaf 7964 [7956] LowerTree.leaf) 7965 [7957] LowerTree.leaf)) 7976 [7968] (LowerTree.node (LowerTree.node (LowerTree.node LowerTree.leaf 7977 [7969] LowerTree.leaf) 7978 [7970] LowerTree.leaf) 7979 [7971] (LowerTree.node LowerTree.leaf 7980 [7972] LowerTree.leaf)))) 7981 [7973] (LowerTree.node (LowerTree.node (LowerTree.node (LowerTree.node (LowerTree.node LowerTree.leaf 7982 [7974] LowerTree.leaf) 7983 [7975] LowerTree.leaf) 7992 [7984] (LowerTree.node (LowerTree.node LowerTree.leaf 7993 [7985] LowerTree.leaf) 7994 [7986] LowerTree.leaf)) 7995 [7987] (LowerTree.node (LowerTree.node (LowerTree.node LowerTree.leaf 7996 [7988] LowerTree.leaf) 7997 [7989] LowerTree.leaf) 7998 [7990] (LowerTree.node LowerTree.leaf 7999 [7991] LowerTree.leaf))) 8008 [8000] (LowerTree.node (LowerTree.node (LowerTree.node (LowerTree.node LowerTree.leaf 8009 [8001] LowerTree.leaf) 8010 [8002] LowerTree.leaf) 8011 [8003] (LowerTree.node (LowerTree.node LowerTree.leaf 8012 [8004] LowerTree.leaf) 8013 [8005] LowerTree.leaf)) 8025 [8017] (LowerTree.node (LowerTree.node (LowerTree.node LowerTree.leaf 8027 [8019] LowerTree.leaf) 8029 [8021] LowerTree.leaf) 8031 [8023] (LowerTree.node LowerTree.leaf 8040 [8032] LowerTree.leaf))))))

def pyLowerTree10 : LowerTree :=
  (LowerTree.node (LowerTree.node (LowerTree.node (LowerTree.node (LowerTree.node (LowerTree.node (LowerTree.node LowerTree.leaf 8042 [8034] LowerTree.leaf) 8043 [8035] LowerTree.leaf) 8044 [8036] (LowerTree.node (LowerTree.node LowerTree.leaf 8045 [8037] LowerTree.leaf) 8046 [8038] LowerTree.leaf)) 8047 [8039] (LowerTree.node (LowerTree.node (LowerTree.node LowerTree.leaf 8072 [8064] LowerTree.leaf) 8073 [8065] LowerTree.leaf) 8074 [8066] (LowerTree.node (LowerTree.node LowerTree.leaf 8075 [8067] LowerTree.leaf) 8076 [8068] LowerTree.leaf))) 8077 [8069] (LowerTree.node (LowerTree.node (LowerTree.node (LowerTree.node LowerTree.leaf 8078 [8070] LowerTree.leaf) 8079 [8071] LowerTree.leaf) 8088 [8080] (LowerTree.node (LowerTree.node LowerTree.leaf 8089 [8081] LowerTree.leaf) 8090 [8082] LowerTree.leaf)) 8091 [8083] (LowerTree.node (LowerTree.node (LowerTree.node LowerTree.leaf 8092 [8084] LowerTree.leaf) 8093 [8085] LowerTree.leaf) 8094 [8086] (LowerTree.node LowerTree.leaf 8095 [8087] LowerTree.leaf)))) 8104 [8096] (LowerTree.node (LowerTree.node (LowerTree.node (LowerTree.node (LowerTree.node LowerTree.leaf 8105 [8097] LowerTree.leaf) 8106 [8098] LowerTree.leaf) 8107 [8099] (LowerTree.node (LowerTree.node LowerTree.leaf 8108 [8100] LowerTree.leaf) 8109 [8101] LowerTree.leaf)) 8110 [8102] (LowerTree.node (LowerTree.node (LowerTree.node LowerTree.leaf 8111 [8103] LowerTree.leaf) 8120 [8112] LowerTree.leaf) 8121 [8113] (LowerTree.node LowerTree.leaf 8122 [8048] LowerTree.leaf))) 8123 [8049] (LowerTree.node (LowerTree.node (LowerTree.node (LowerTree.node LowerTree.leaf 8124 [8115] LowerTree.leaf) 8136 [8050] LowerTree.leaf) 8137 [8051] (LowerTree.node (LowerTree.node LowerTree.leaf 8138 [8052] LowerTree.leaf) 8139 [8053] LowerTree.leaf)) 8140 [8131] (LowerTree.node (LowerTree.node (LowerTree.node LowerTree.leaf 8152 [8144] LowerTree.leaf) 8153 [8145] LowerTree.leaf) 8154 [8054] (LowerTree.node LowerTree.leaf 8155 [8055] LowerTree.leaf))))) 8168 [8160] (LowerTree.node (LowerTree.node (LowerTree.node (LowerTree.node (LowerTree.node (LowerTree.node LowerTree.leaf 8169 [8161] LowerTree.leaf) 8170 [8058] LowerTree.leaf) 8171 [8059] (LowerTree.node (LowerTree.node LowerTree.leaf 8172 [8165] LowerTree.leaf) 8184 [8056] LowerTree.leaf)) 8185 [8057] (LowerTree.node (LowerTree.node (LowerTree.node LowerTree.leaf 8186 [8060] LowerTree.leaf) 8187 [8061] LowerTree.leaf) 8188 [8179] (LowerTree.node (LowerTree.node LowerTree.leaf 8486 [969] LowerTree.leaf) 8490 [107] LowerTree.leaf))) 8491 [229] (LowerTree.node (LowerTree.node (LowerTree.node (LowerTree.node LowerTree.leaf 8498 [8526] LowerTree.leaf) 8544 [8560] LowerTree.leaf) 8545 [8561] (LowerTree.node (LowerTree.node LowerTree.leaf 8546 [8562] LowerTree.leaf) 8547 [8563] LowerTree.leaf)) 8548 [8564] (LowerTree.node (LowerTree.node (LowerTree.node LowerTree.leaf 8549 [8565] LowerTree.leaf) 8550 [8566] LowerTree.leaf) 8551 [8567] (LowerTree.node LowerTree.leaf 8552 [8568] LowerTree.leaf)))) 8553 [8569] (LowerTree.node (LowerTree.node (LowerTree.node (LowerTree.node (LowerTree.node LowerTree.leaf 8554 [8570] LowerTree.leaf) 8555 [8571] LowerTree.leaf) 8556 [8572] (LowerTree.node (LowerTree.node LowerTree.leaf 8557 [8573] LowerTree.leaf) 8558 [8574] LowerTree.leaf)) 8559 [8575] (LowerTree.node (LowerTree.node (LowerTree.node LowerTree.leaf 8579 [8580] LowerTree.leaf) 9398 [9424] LowerTree.leaf) 9399 [9425] (LowerTree.node LowerTree.leaf 9400 [9426] LowerTree.leaf))) 9401 [9427] (LowerTree.node (LowerTree.node (LowerTree.node (LowerTree.node LowerTree.leaf 9402 [9428] LowerTree.leaf) 9403 [9429] LowerTree.leaf) 9404 [9430] (LowerTree.node (LowerTree.node LowerTree.leaf 9405 [9431] LowerTree.leaf) 9406 [9432] LowerTree.leaf)) 9407 [9433] (LowerTree.node (LowerTree.node (LowerTree.node LowerTree.leaf 9408 [9434] LowerTree.leaf) 9409 [9435] LowerTree.leaf) 9410 [9436] (LowerTree.node LowerTree.leaf 9411 [9437] LowerTree.leaf))))))

def pyLowerTree11 : LowerTree :=
  (LowerTree.node (LowerTree.node (LowerTree.node (LowerTree.node (LowerTree.node (LowerTree.node (LowerTree.node LowerTree.leaf 9413 [9439] LowerTree.leaf) 9414 [9440] LowerTree.leaf) 9415 [9441] (LowerTree.node (LowerTree.node LowerTree.leaf 9416 [9442] LowerTree.leaf) 9417 [9443] LowerTree.leaf)) 9418 [9444] (LowerTree.node (LowerTree.node (LowerTree.node LowerTree.leaf 9419 [9445] LowerTree.leaf) 9420 [9446] LowerTree.leaf) 9421 [9447] (LowerTree.node (LowerTree.node LowerTree.leaf 9422 [9448] LowerTree.leaf) 9423 [9449] LowerTree.leaf))) 11264 [11312] (LowerTree.node (LowerTree.node (LowerTree.node (LowerTree.node LowerTree.leaf 11265 [11313] LowerTree.leaf) 11266 [11314] LowerTree.leaf) 11267 [11315] (LowerTree.node (LowerTree.node LowerTree.leaf 11268 [11316] LowerTree.leaf) 11269 [11317] LowerTree.leaf)) 11270 [11318] (LowerTree.node (LowerTree.node (LowerTree.node LowerTree.leaf 11271 [11319] LowerTree.leaf) 11272 [11320] LowerTree.leaf) 11273 [11321] (LowerTree.node LowerTree.leaf 11274 [11322] LowerTree.leaf)))) 11275 [11323] (LowerTree.node (LowerTree.node (LowerTree.node (LowerTree.node (LowerTree.node LowerTree.leaf 11276 [11324] LowerTree.leaf) 11277 [11325] LowerTree.leaf) 11278 [11326] (LowerTree.node (LowerTree.node LowerTree.leaf 11279 [11327] LowerTree.leaf) 11280 [11328] LowerTree.leaf)) 11281 [11329] (LowerTree.node (LowerTree.node (LowerTree.node LowerTree.leaf 11282 [11330] LowerTree.leaf) 11283 [11331] LowerTree.leaf) 11284 [11332] (LowerTree.node LowerTree.leaf 11285 [11333] LowerTree.leaf))) 11286 [11334] (LowerTree.node (LowerTree.node (LowerTree.node (LowerTree.node LowerTree.leaf 11287 [11335] LowerTree.leaf) 11288 [11336] LowerTree.leaf) 11289 [11337] (LowerTree.node (LowerTree.node LowerTree.leaf 11290 [11338] LowerTree.leaf) 11291 [11339] LowerTree.leaf)) 11292 [11340] (LowerTree.node (LowerTree.node (LowerTree.node LowerTree.leaf 11293 [11341] LowerTree.leaf) 11294 [11342] LowerTree.leaf) 11295 [11343] (LowerTree.node LowerTree.leaf 11296 [11344] LowerTree.leaf))))) 11297 [11345] (LowerTree.node (LowerTree.node (LowerTree.node (LowerTree.node (LowerTree.node (LowerTree.node LowerTree.leaf 11298 [11346] LowerTree.leaf) 11299 [11347] LowerTree.leaf) 11300 [11348] (LowerTree.node (LowerTree.node LowerTree.leaf 11301 [11349] LowerTree.leaf) 11302 [11350] LowerTree.leaf)) 11303 [11351] (LowerTree.node (LowerTree.node (LowerTree.node LowerTree.leaf 11304 [11352] LowerTree.leaf) 11305 [11353] LowerTree.leaf) 11306 [11354] (LowerTree.node (LowerTree.node LowerTree.leaf 11307 [11355] LowerTree.leaf) 11308 [11356] LowerTree.leaf))) 11309 [11357] (LowerTree.node (LowerTree.node (LowerTree.node (LowerTree.node LowerTree.leaf 11310 [11358] LowerTree.leaf) 11311 [11359] LowerTree.leaf) 11360 [11361] (LowerTree.node (LowerTree.node LowerTree.leaf 11362 [619] LowerTree.leaf) 11363 [7549] LowerTree.leaf)) 11364 [637] (LowerTree.node (LowerTree.node (LowerTree.node LowerTree.leaf 11367 [11368] LowerTree.leaf) 11369 [11370] LowerTree.leaf) 11371 [11372] (LowerTree.node LowerTree.leaf 11373 [593] LowerTree.leaf)))) 11374 [625] (LowerTree.node (LowerTree.node (LowerTree.node (LowerTree.node (LowerTree.node LowerTree.leaf 11375 [592] LowerTree.leaf) 11376 [594] LowerTree.leaf) 11378 [11379] (LowerTree.node (LowerTree.node LowerTree.leaf 11381 [11382] LowerTree.leaf) 11390 [575] LowerTree.leaf)) 11391 [576] (LowerTree.node (LowerTree.node (LowerTree.node LowerTree.leaf 11392 [11393] LowerTree.leaf) 11394 [11395] LowerTree.leaf) 11396 [11397] (LowerTree.node LowerTree.leaf 11398 [11399] LowerTree.leaf))) 11400 [11401] (LowerTree.node (LowerTree.node (LowerTree.node (LowerTree.node LowerTree.leaf 11402 [11403] LowerTree.leaf) 11404 [11405] LowerTree.leaf) 11406 [11407] (LowerTree.node (LowerTree.node LowerTree.leaf 11408 [11409] LowerTree.leaf) 11410 [11411] LowerTree.leaf)) 11412 [11413] (LowerTree.node (LowerTree.node (LowerTree.node LowerTree.leaf 11414 [11415] LowerTree.leaf) 11416 [11417] LowerTree.leaf) 11418 [11419] (LowerTree.node LowerTree.leaf 11420 [11421] LowerTree.leaf))))))

def pyLowerTree12 : LowerTree :=
  (LowerTree.node (LowerTree.node (LowerTree.node (LowerTree.node (LowerTree.node (LowerTree.node (LowerTree.node LowerTree.leaf 11424 [11425] LowerTree.leaf) 11426 [11427] LowerTree.leaf) 11428 [11429] (LowerTree.node (LowerTree.node LowerTree.leaf 11430 [11431] LowerTree.leaf) 11432 [11433] LowerTree.leaf)) 11434 [11435] (LowerTree.node (LowerTree.node (LowerTree.node LowerTree.leaf 11436 [11437] LowerTree.leaf) 11438 [11439] LowerTree.leaf) 11440 [11441] (LowerTree.node (LowerTree.node LowerTree.leaf 11442 [11443] LowerTree.leaf) 11444 [11445] LowerTree.leaf))) 11446 [11447] (LowerTree.node (LowerTree.node (LowerTree.node (LowerTree.node LowerTree.leaf 11448 [11449] LowerTree.leaf) 11450 [11451] LowerTree.leaf) 11452 [11453] (LowerTree.node (LowerTree.node LowerTree.leaf 11454 [11455] LowerTree.leaf) 11456 [11457] LowerTree.leaf)) 11458 [11459] (LowerTree.node (LowerTree.node (LowerTree.node LowerTree.leaf 11460 [11461] LowerTree.leaf) 11462 [11463] LowerTree.leaf) 11464 [11465] (LowerTree.node LowerTree.leaf 11466 [11467] LowerTree.leaf)))) 11468 [11469] (LowerTree.node (LowerTree.node (LowerTree.node (LowerTree.node (LowerTree.node LowerTree.leaf 11470 [11471] LowerTree.leaf) 11472 [11473] LowerTree.leaf) 11474 [11475] (LowerTree.node (LowerTree.node LowerTree.leaf 11476 [11477] LowerTree.leaf) 11478 [11479] LowerTree.leaf)) 11480 [11481] (LowerTree.node (LowerTree.node (LowerTree.node LowerTree.leaf 11482 [11483] LowerTree.leaf) 11484 [11485] LowerTree.leaf) 11486 [11487] (LowerTree.node LowerTree.leaf 11488 [11489] LowerTree.leaf))) 11490 [11491] (LowerTree.node (LowerTree.node (LowerTree.node (LowerTree.node LowerTree.leaf 11499 [11500] LowerTree.leaf) 11501 [11502] LowerTree.leaf) 11506 [11507] (LowerTree.node (LowerTree.node LowerTree.leaf 42560 [42561] LowerTree.leaf) 42562 [42563] LowerTree.leaf)) 42564 [42565] (LowerTree.node (LowerTree.node (LowerTree.node LowerTree.leaf 42566 [42567] LowerTree.leaf) 42568 [42569] LowerTree.leaf) 42570 [42571] (LowerTree.node LowerTree.leaf 42572 [42573] LowerTree.leaf))))) 42574 [42575] (LowerTree.node (LowerTree.node (LowerTree.node (LowerTree.node (LowerTree.node (LowerTree.node LowerTree.leaf 42576 [42577] LowerTree.leaf) 42578 [42579] LowerTree.leaf) 42580 [42581] (LowerTree.node (LowerTree.node LowerTree.leaf 42582 [42583] LowerTree.leaf) 42584 [42585] LowerTree.leaf)) 42586 [42587] (LowerTree.node (LowerTree.node (LowerTree.node LowerTree.leaf 42588 [42589] LowerTree.leaf) 42590 [42591] LowerTree.leaf) 42592 [42593] (LowerTree.node LowerTree.leaf 42594 [42595] LowerTree.leaf))) 42596 [42597] (LowerTree.node (LowerTree.node (LowerTree.node (LowerTree.node LowerTree.leaf 42598 [42599] LowerTree.leaf) 42600 [42601] LowerTree.leaf) 42602 [42603] (LowerTree.node (LowerTree.node LowerTree.leaf 42604 [42605] LowerTree.leaf) 42624 [42625] LowerTree.leaf)) 42626 [42627] (LowerTree.node (LowerTree.node (LowerTree.node LowerTree.leaf 42628 [42629] LowerTree.leaf) 42630 [42631] LowerTree.leaf) 42632 [42633] (LowerTree.node LowerTree.leaf 42634 [42635] LowerTree.leaf)))) 42636 [42637] (LowerTree.node (LowerTree.node (LowerTree.node (LowerTree.node (LowerTree.node LowerTree.leaf 42638 [42639] LowerTree.leaf) 42640 [42641] LowerTree.leaf) 42642 [42643] (LowerTree.node (LowerTree.node LowerTree.leaf 42644 [42645] LowerTree.leaf) 42646 [42647] LowerTree.leaf)) 42648 [42649] (LowerTree.node (LowerTree.node (LowerTree.node LowerTree.leaf 42650 [42651] LowerTree.leaf) 42786 [42787] LowerTree.leaf) 42788 [42789] (LowerTree.node LowerTree.leaf 42790 [42791] LowerTree.leaf))) 42792 [42793] (LowerTree.node (LowerTree.node (LowerTree.node (LowerTree.node LowerTree.leaf 42794 [42795] LowerTree.leaf) 42796 [42797] LowerTree.leaf) 42798 [42799] (LowerTree.node (LowerTree.node LowerTree.leaf 42802 [42803] LowerTree.leaf) 42804 [42805] LowerTree.leaf)) 42806 [42807] (LowerTree.node (LowerTree.node (LowerTree.node LowerTree.leaf 42808 [42809] LowerTree.leaf) 42810 [42811] LowerTree.leaf) 42812 [42813] (LowerTree.node LowerTree.leaf 42814 [42815] LowerTree.leaf))))))

def pyLowerTree13 : LowerTree :=
  (LowerTree.node (LowerTree.node (LowerTree.node (LowerTree.node (LowerTree.node (LowerTree.node (LowerTree.node LowerTree.leaf 42818 [42819] LowerTree.leaf) 42820 [42821] LowerTree.leaf) 42822 [42823] (LowerTree.node (LowerTree.node LowerTree.leaf 42824 [42825] LowerTree.leaf) 42826 [42827] LowerTree.leaf)) 42828 [42829] (LowerTree.node (LowerTree.node (LowerTree.node LowerTree.leaf 42830 [42831] LowerTree.leaf) 42832 [42833] LowerTree.leaf) 42834 [42835] (LowerTree.node (LowerTree.node LowerTree.leaf 42836 [42837] LowerTree.leaf) 42838 [42839] LowerTree.leaf))) 42840 [42841] (LowerTree.node (LowerTree.node (LowerTree.node (LowerTree.node LowerTree.leaf 42842 [42843] LowerTree.leaf) 42844 [42845] LowerTree.leaf) 42846 [42847] (LowerTree.node (LowerTree.node LowerTree.leaf 42848 [42849] LowerTree.leaf) 42850 [42851] LowerTree.leaf)) 42852 [42853] (LowerTree.node (LowerTree.node (LowerTree.node LowerTree.leaf 42854 [42855] LowerTree.leaf) 42856 [42857] LowerTree.leaf) 42858 [42859] (LowerTree.node LowerTree.leaf 42860 [42861] LowerTree.leaf)))) 42862 [42863] (LowerTree.node (LowerTree.node (LowerTree.node (LowerTree.node (LowerTree.node LowerTree.leaf 42873 [42874] LowerTree.leaf) 42875 [42876] LowerTree.leaf) 42877 [7545] (LowerTree.node (LowerTree.node LowerTree.leaf 42878 [42879] LowerTree.leaf) 42880 [42881] LowerTree.leaf)) 42882 [42883] (LowerTree.node (LowerTree.node (LowerTree.node LowerTree.leaf 42884 [42885] LowerTree.leaf) 42886 [42887] LowerTree.leaf) 42891 [42892] (LowerTree.node LowerTree.leaf 42893 [613] LowerTree.leaf))) 42896 [42897] (LowerTree.node (LowerTree.node (LowerTree.node (LowerTree.node LowerTree.leaf 42898 [42899] LowerTree.leaf) 42902 [42903] LowerTree.leaf) 42904 [42905] (LowerTree.node (LowerTree.node LowerTree.leaf 42906 [42907] LowerTree.leaf) 42908 [42909] LowerTree.leaf)) 42910 [42911] (LowerTree.node (LowerTree.node (LowerTree.node LowerTree.leaf 42912 [42913] LowerTree.leaf) 42914 [42915] LowerTree.leaf) 42916 [42917] (LowerTree.node LowerTree.leaf 42918 [42919] LowerTree.leaf))))) 42920 [42921] (LowerTree.node (LowerTree.node (LowerTree.node (LowerTree.node (LowerTree.node (LowerTree.node LowerTree.leaf 42922 [614] LowerTree.leaf) 42923 [604] LowerTree.leaf) 42924 [609] (LowerTree.node (LowerTree.node LowerTree.leaf 42925 [620] LowerTree.leaf) 42926 [618] LowerTree.leaf)) 42928 [670] (LowerTree.node (LowerTree.node (LowerTree.node LowerTree.leaf 42929 [647] LowerTree.leaf) 42930 [669] LowerTree.leaf) 42931 [43859] (LowerTree.node (LowerTree.node LowerTree.leaf 42932 [42933] LowerTree.leaf) 42934 [42935] LowerTree.leaf))) 42936 [42937] (LowerTree.node (LowerTree.node (LowerTree.node (LowerTree.node LowerTree.leaf 42938 [42939] LowerTree.leaf) 42940 [42941] LowerTree.leaf) 42942 [42943] (LowerTree.node (LowerTree.node LowerTree.leaf 42944 [42945] LowerTree.leaf) 42946 [42947] LowerTree.leaf)) 42948 [42900] (LowerTree.node (LowerTree.node (LowerTree.node LowerTree.leaf 42949 [642] LowerTree.leaf) 42950 [7566] LowerTree.leaf) 42951 [42952] (LowerTree.node LowerTree.leaf 42953 [42954] LowerTree.leaf)))) 42960 [42961] (LowerTree.node (LowerTree.node (LowerTree.node (LowerTree.node (LowerTree.node LowerTree.leaf 42966 [42967] LowerTree.leaf) 42968 [42969] LowerTree.leaf) 42997 [42998] (LowerTree.node (LowerTree.node LowerTree.leaf 65313 [65345] LowerTree.leaf) 65314 [65346] LowerTree.leaf)) 65315 [65347] (LowerTree.node (LowerTree.node (LowerTree.node LowerTree.leaf 65316 [65348] LowerTree.leaf) 65317 [65349] LowerTree.leaf) 65318 [65350] (LowerTree.node LowerTree.leaf 65319 [65351] LowerTree.leaf))) 65320 [65352] (LowerTree.node (LowerTree.node (LowerTree.node (LowerTree.node LowerTree.leaf 65321 [65353] LowerTree.leaf) 65322 [65354] LowerTree.leaf) 65323 [65355] (LowerTree.node (LowerTree.node LowerTree.leaf 65324 [65356] LowerTree.leaf) 65325 [65357] LowerTree.leaf)) 65326 [65358] (LowerTree.node (LowerTree.node (LowerTree.node LowerTree.leaf 65327 [65359] LowerTree.leaf) 65328 [65360] LowerTree.leaf) 65329 [65361] (LowerTree.node LowerTree.leaf 65330 [65362] LowerTree.leaf))))))

def pyLowerTree14 : LowerTree :=
  (LowerTree.node (LowerTree.node (LowerTree.node (LowerTree.node (LowerTree.node (LowerTree.node (LowerTree.node LowerTree.leaf 65332 [65364] LowerTree.leaf) 65333 [65365] LowerTree.leaf) 65334 [65366] (LowerTree.node (LowerTree.node LowerTree.leaf 65335 [65367] LowerTree.leaf) 65336 [65368] LowerTree.leaf)) 65337 [65369] (LowerTree.node (LowerTree.node (LowerTree.node LowerTree.leaf 65338 [65370] LowerTree.leaf) 66560 [66600] LowerTree.leaf) 66561 [66601] (LowerTree.node (LowerTree.node LowerTree.leaf 66562 [66602] LowerTree.leaf) 66563 [66603] LowerTree.leaf))) 66564 [66604] (LowerTree.node (LowerTree.node (LowerTree.node (LowerTree.node LowerTree.leaf 66565 [66605] LowerTree.leaf) 66566 [66606] LowerTree.leaf) 66567 [66607] (LowerTree.node (LowerTree.node LowerTree.leaf 66568 [66608] LowerTree.leaf) 66569 [66609] LowerTree.leaf)) 66570 [66610] (LowerTree.node (LowerTree.node (LowerTree.node LowerTree.leaf 66571 [66611] LowerTree.leaf) 66572 [66612] LowerTree.leaf) 66573 [66613] (LowerTree.node LowerTree.leaf 66574 [66614] LowerTree.leaf)))) 66575 [66615] (LowerTree.node (LowerTree.node (LowerTree.node (LowerTree.node (LowerTree.node LowerTree.leaf 66576 [66616] LowerTree.leaf) 66577 [66617] LowerTree.leaf) 66578 [66618] (LowerTree.node (LowerTree.node LowerTree.leaf 66579 [66619] LowerTree.leaf) 66580 [66620] LowerTree.leaf)) 66581 [66621] (LowerTree.node (LowerTree.node (LowerTree.node LowerTree.leaf 66582 [66622] LowerTree.leaf) 66583 [66623] LowerTree.leaf) 66584 [66624] (LowerTree.node LowerTree.leaf 66585 [66625] LowerTree.leaf))) 66586 [66626] (LowerTree.node (LowerTree.node (LowerTree.node (LowerTree.node LowerTree.leaf 66587 [66627] LowerTree.leaf) 66588 [66628] LowerTree.leaf) 66589 [66629] (LowerTree.node (LowerTree.node LowerTree.leaf 66590 [66630] LowerTree.leaf) 66591 [66631] LowerTree.leaf)) 66592 [66632] (LowerTree.node (LowerTree.node (LowerTree.node LowerTree.leaf 66593 [66633] LowerTree.leaf) 66594 [66634] LowerTree.leaf) 66595 [66635] (LowerTree.node LowerTree.leaf 66596 [66636] LowerTree.leaf))))) 66597 [66637] (LowerTree.node (LowerTree.node (LowerTree.node (LowerTree.node (LowerTree.node (LowerTree.node LowerTree.leaf 66598 [66638] LowerTree.leaf) 66599 [66639] LowerTree.leaf) 66736 [66776] (LowerTree.node (LowerTree.node LowerTree.leaf 66737 [66777] LowerTree.leaf) 66738 [66778] LowerTree.leaf)) 66739 [66779] (LowerTree.node (LowerTree.node (LowerTree.node LowerTree.leaf 66740 [66780] LowerTree.leaf) 66741 [66781] LowerTree.leaf) 66742 [66782] (LowerTree.node LowerTree.leaf 66743 [66783] LowerTree.leaf))) 66744 [66784] (LowerTree.node (LowerTree.node (LowerTree.node (LowerTree.node LowerTree.leaf 66745 [66785] LowerTree.leaf) 66746 [66786] LowerTree.leaf) 66747 [66787] (LowerTree.node (LowerTree.node LowerTree.leaf 66748 [66788] LowerTree.leaf) 66749 [66789] LowerTree.leaf)) 66750 [66790] (LowerTree.node (LowerTree.node (LowerTree.node LowerTree.leaf 66751 [66791] LowerTree.leaf) 66752 [66792] LowerTree.leaf) 66753 [66793] (LowerTree.node LowerTree.leaf 66754 [66794] LowerTree.leaf)))) 66755 [66795] (LowerTree.node (LowerTree.node (LowerTree.node (LowerTree.node (LowerTree.node LowerTree.leaf 66756 [66796] LowerTree.leaf) 66757 [66797] LowerTree.leaf) 66758 [66798] (LowerTree.node (LowerTree.node LowerTree.leaf 66759 [66799] LowerTree.leaf) 66760 [66800] LowerTree.leaf)) 66761 [66801] (LowerTree.node (LowerTree.node (LowerTree.node LowerTree.leaf 66762 [66802] LowerTree.leaf) 66763 [66803] LowerTree.leaf) 66764 [66804] (LowerTree.node LowerTree.leaf 66765 [66805] LowerTree.leaf))) 66766 [66806] (LowerTree.node (LowerTree.node (LowerTree.node (LowerTree.node LowerTree.leaf 66767 [66807] LowerTree.leaf) 66768 [66808] LowerTree.leaf) 66769 [66809] (LowerTree.node (LowerTree.node LowerTree.leaf 66770 [66810] LowerTree.leaf) 66771 [66811] LowerTree.leaf)) 66928 [66967] (LowerTree.node (LowerTree.node (LowerTree.node LowerTree.leaf 66929 [66968] LowerTree.leaf) 66930 [66969] LowerTree.leaf) 66931 [66970] (LowerTree.node LowerTree.leaf 66932 [66971] LowerTree.leaf))))))

def pyLowerTree15 : LowerTree :=
  (LowerTree.node (LowerTree.node (LowerTree.node (LowerTree.node (LowerTree.node (LowerTree.node (LowerTree.node LowerTree.leaf 66934 [66973] LowerTree.leaf) 66935 [66974] LowerTree.leaf) 66936 [66975] (LowerTree.node (LowerTree.node LowerTree.leaf 66937 [66976] LowerTree.leaf) 66938 [66977] LowerTree.leaf)) 66940 [66979] (LowerTree.node (LowerTree.node (LowerTree.node LowerTree.leaf 66941 [66980] LowerTree.leaf) 66942 [66981] LowerTree.leaf) 66943 [66982] (LowerTree.node (LowerTree.node LowerTree.leaf 66944 [66983] LowerTree.leaf) 66945 [66984] LowerTree.leaf))) 66946 [66985] (LowerTree.node (LowerTree.node (LowerTree.node (LowerTree.node LowerTree.leaf 66947 [66986] LowerTree.leaf) 66948 [66987] LowerTree.leaf) 66949 [66988] (LowerTree.node (LowerTree.node LowerTree.leaf 66950 [66989] LowerTree.leaf) 66951 [66990] LowerTree.leaf)) 66952 [66991] (LowerTree.node (LowerTree.node (LowerTree.node LowerTree.leaf 66953 [66992] LowerTree.leaf) 66954 [66993] LowerTree.leaf) 66956 [66995] (LowerTree.node LowerTree.leaf 66957 [66996] LowerTree.leaf)))) 66958 [66997] (LowerTree.node (LowerTree.node (LowerTree.node (LowerTree.node (LowerTree.node LowerTree.leaf 66959 [66998] LowerTree.leaf) 66960 [66999] LowerTree.leaf) 66961 [67000] (LowerTree.node (LowerTree.node LowerTree.leaf 66962 [67001] LowerTree.leaf) 66964 [67003] LowerTree.leaf)) 66965 [67004] (LowerTree.node (LowerTree.node (LowerTree.node LowerTree.leaf 68736 [68800] LowerTree.leaf) 68737 [68801] LowerTree.leaf) 68738 [68802] (LowerTree.node LowerTree.leaf 68739 [68803] LowerTree.leaf))) 68740 [68804] (LowerTree.node (LowerTree.node (LowerTree.node (LowerTree.node LowerTree.leaf 68741 [68805] LowerTree.leaf) 68742 [68806] LowerTree.leaf) 68743 [68807] (LowerTree.node (LowerTree.node LowerTree.leaf 68744 [68808] LowerTree.leaf) 68745 [68809] LowerTree.leaf)) 68746 [68810] (LowerTree.node (LowerTree.node (LowerTree.node LowerTree.leaf 68747 [68811] LowerTree.leaf) 68748 [68812] LowerTree.leaf) 68749 [68813] (LowerTree.node LowerTree.leaf 68750 [68814] LowerTree.leaf))))) 68751 [68815] (LowerTree.node (LowerTree.node (LowerTree.node (LowerTree.node (LowerTree.node (LowerTree.node LowerTree.leaf 68752 [68816] LowerTree.leaf) 68753 [68817] LowerTree.leaf) 68754 [68818] (LowerTree.node (LowerTree.node LowerTree.leaf 68755 [68819] LowerTree.leaf) 68756 [68820] LowerTree.leaf)) 68757 [68821] (LowerTree.node (LowerTree.node (LowerTree.node LowerTree.leaf 68758 [68822] LowerTree.leaf) 68759 [68823] LowerTree.leaf) 68760 [68824] (LowerTree.node (LowerTree.node LowerTree.leaf 68761 [68825] LowerTree.leaf) 68762 [68826] LowerTree.leaf))) 68763 [68827] (LowerTree.node (LowerTree.node (LowerTree.node (LowerTree.node LowerTree.leaf 68764 [68828] LowerTree.leaf) 68765 [68829] LowerTree.leaf) 68766 [68830] (LowerTree.node (LowerTree.node LowerTree.leaf 68767 [68831] LowerTree.leaf) 68768 [68832] LowerTree.leaf)) 68769 [68833] (LowerTree.node (LowerTree.node (LowerTree.node LowerTree.leaf 68770 [68834] LowerTree.leaf) 68771 [68835] LowerTree.leaf) 68772 [68836] (LowerTree.node LowerTree.leaf 68773 [68837] LowerTree.leaf)))) 68774 [68838] (LowerTree.node (LowerTree.node (LowerTree.node (LowerTree.node (LowerTree.node LowerTree.leaf 68775 [68839] LowerTree.leaf) 68776 [68840] LowerTree.leaf) 68777 [68841] (LowerTree.node (LowerTree.node LowerTree.leaf 68778 [68842] LowerTree.leaf) 68779 [68843] LowerTree.leaf)) 68780 [68844] (LowerTree.node (LowerTree.node (LowerTree.node LowerTree.leaf 68781 [68845] LowerTree.leaf) 68782 [68846] LowerTree.leaf) 68783 [68847] (LowerTree.node LowerTree.leaf 68784 [68848] LowerTree.leaf))) 68785 [68849] (LowerTree.node (LowerTree.node (LowerTree.node (LowerTree.node LowerTree.leaf 68786 [68850] LowerTree.leaf) 71840 [71872] LowerTree.leaf) 71841 [71873] (LowerTree.node (LowerTree.node LowerTree.leaf 71842 [71874] LowerTree.leaf) 71843 [71875] LowerTree.leaf)) 71844 [71876] (LowerTree.node (LowerTree.node (LowerTree.node LowerTree.leaf 71845 [71877] LowerTree.leaf) 71846 [71878] LowerTree.leaf) 71847 [71879] (LowerTree.node LowerTree.leaf 71848 [71880] LowerTree.leaf))))))

def pyLowerTree16 : LowerTree :=
  (LowerTree.node (LowerTree.node (LowerTree.node (LowerTree.node (LowerTree.node (LowerTree.node (LowerTree.node LowerTree.leaf 71850 [71882] LowerTree.leaf) 71851 [71883] LowerTree.leaf) 71852 [71884] (LowerTree.node (LowerTree.node LowerTree.leaf 71853 [71885] LowerTree.leaf) 71854 [71886] LowerTree.leaf)) 71855 [71887] (LowerTree.node (LowerTree.node (LowerTree.node LowerTree.leaf 71856 [71888] LowerTree.leaf) 71857 [71889] LowerTree.leaf) 71858 [71890] (LowerTree.node (LowerTree.node LowerTree.leaf 71859 [71891] LowerTree.leaf) 71860 [71892] LowerTree.leaf))) 71861 [71893] (LowerTree.node (LowerTree.node (LowerTree.node (LowerTree.node LowerTree.leaf 71862 [71894] LowerTree.leaf) 71863 [71895] LowerTree.leaf) 71864 [71896] (LowerTree.node (LowerTree.node LowerTree.leaf 71865 [71897] LowerTree.leaf) 71866 [71898] LowerTree.leaf)) 71867 [71899] (LowerTree.node (LowerTree.node (LowerTree.node LowerTree.leaf 71868 [71900] LowerTree.leaf) 71869 [71901] LowerTree.leaf) 71870 [71902] (LowerTree.node LowerTree.leaf 71871 [71903] LowerTree.leaf)))) 93760 [93792] (LowerTree.node (LowerTree.node (LowerTree.node (LowerTree.node (LowerTree.node LowerTree.leaf 93761 [93793] LowerTree.leaf) 93762 [93794] LowerTree.leaf) 93763 [93795] (LowerTree.node (LowerTree.node LowerTree.leaf 93764 [93796] LowerTree.leaf) 93765 [93797] LowerTree.leaf)) 93766 [93798] (LowerTree.node (LowerTree.node (LowerTree.node LowerTree.leaf 93767 [93799] LowerTree.leaf) 93768 [93800] LowerTree.leaf) 93769 [93801] (LowerTree.node LowerTree.leaf 93770 [93802] LowerTree.leaf))) 93771 [93803] (LowerTree.node (LowerTree.node (LowerTree.node (LowerTree.node LowerTree.leaf 93772 [93804] LowerTree.leaf) 93773 [93805] LowerTree.leaf) 93774 [93806] (LowerTree.node (LowerTree.node LowerTree.leaf 93775 [93807] LowerTree.leaf) 93776 [93808] LowerTree.leaf)) 93777 [93809] (LowerTree.node (LowerTree.node (LowerTree.node LowerTree.leaf 93778 [93810] LowerTree.leaf) 93779 [93811] LowerTree.leaf) 93780 [93812] (LowerTree.node LowerTree.leaf 93781 [93813] LowerTree.leaf))))) 93782 [93814] (LowerTree.node (LowerTree.node (LowerTree.node (LowerTree.node (LowerTree.node (LowerTree.node LowerTree.leaf 93783 [93815] LowerTree.leaf) 93784 [93816] LowerTree.leaf) 93785 [93817] (LowerTree.node (LowerTree.node LowerTree.leaf 93786 [93818] LowerTree.leaf) 93787 [93819] LowerTree.leaf)) 93788 [93820] (LowerTree.node (LowerTree.node (LowerTree.node LowerTree.leaf 93789 [93821] LowerTree.leaf) 93790 [93822] LowerTree.leaf) 93791 [93823] (LowerTree.node LowerTree.leaf 125184 [125218] LowerTree.leaf))) 125185 [125219] (LowerTree.node (LowerTree.node (LowerTree.node (LowerTree.node LowerTree.leaf 125186 [125220] LowerTree.leaf) 125187 [125221] LowerTree.leaf) 125188 [125222] (LowerTree.node (LowerTree.node LowerTree.leaf 125189 [125223] LowerTree.leaf) 125190 [125224] LowerTree.leaf)) 125191 [125225] (LowerTree.node (LowerTree.node (LowerTree.node LowerTree.leaf 125192 [125226] LowerTree.leaf) 125193 [125227] LowerTree.leaf) 125194 [125228] (LowerTree.node LowerTree.leaf 125195 [125229] LowerTree.leaf)))) 125196 [125230] (LowerTree.node (LowerTree.node (LowerTree.node (LowerTree.node (LowerTree.node LowerTree.leaf 125197 [125231] LowerTree.leaf) 125198 [125232] LowerTree.leaf) 125199 [125233] (LowerTree.node (LowerTree.node LowerTree.leaf 125200 [125234] LowerTree.leaf) 125201 [125235] LowerTree.leaf)) 125202 [125236] (LowerTree.node (LowerTree.node (LowerTree.node LowerTree.leaf 125203 [125237] LowerTree.leaf) 125204 [125238] LowerTree.leaf) 125205 [125239] (LowerTree.node LowerTree.leaf 125206 [125240] LowerTree.leaf))) 125207 [125241] (LowerTree.node (LowerTree.node (LowerTree.node (LowerTree.node LowerTree.leaf 125208 [125242] LowerTree.leaf) 125209 [125243] LowerTree.leaf) 125210 [125244] (LowerTree.node (LowerTree.node LowerTree.leaf 125211 [125245] LowerTree.leaf) 125212 [125246] LowerTree.leaf)) 125213 [125247] (LowerTree.node (LowerTree.node (LowerTree.node LowerTree.leaf 125214 [125248] LowerTree.leaf) 125215 [125249] LowerTree.leaf) 125216 [125250] (LowerTree.node LowerTree.leaf 125217 [125251] LowerTree.leaf))))))

def pyLowerTree : LowerTree :=
  (LowerTree.node (LowerTree.node (LowerTree.node (LowerTree.node pyLowerTree1 323 [324] pyLowerTree2) 498 [499] (LowerTree.node pyLowerTree3 994 [995] pyLowerTree4)) 1182 [1183] (LowerTree.node (LowerTree.node pyLowerTree5 1346 [1394] pyLowerTree6) 5052 [43916] (LowerTree.node pyLowerTree7 7344 [4336] pyLowerTree8))) 7838 [223] (LowerTree.node (LowerTree.node (LowerTree.node pyLowerTree9 8041 [8033] pyLowerTree10) 9412 [9438] (LowerTree.node pyLowerTree11 11422 [11423] pyLowerTree12)) 42816 [42817] (LowerTree.node (LowerTree.node pyLowerTree13 65331 [65363] pyLowerTree14) 66933 [66972] (LowerTree.node pyLowerTree15 71849 [71881] pyLowerTree16))))

def pyLowerTable1 : List (Nat × List Nat) := [
  (65, [97]), (66, [98]), (67, [99]), (68, [100]), (69, [101]), (70, [102]),
  (71, [103]), (72, [104]), (73, [105]), (74, [106]), (75, [107]), (76, [108]),
  (77, [109]), (78, [110]), (79, [111]), (80, [112]), (81, [113]), (82, [114]),
  (83, [115]), (84, [116]), (85, [117]), (86, [118]), (87, [119]), (88, [120]),
  (89, [121]), (90, [122]), (192, [224]), (193, [225]), (194, [226]), (195, [227]),
  (196, [228]), (197, [229]), (198, [230]), (199, [231]), (200, [232]), (201, [233]),
  (202, [234]), (203, [235]), (204, [236]), (205, [237]), (206, [238]), (207, [239]),
  (208, [240]), (209, [241]), (210, [242]), (211, [243]), (212, [244]), (213, [245]),
  (214, [246]), (216, [248]), (217, [249]), (218, [250]), (219, [251]), (220, [252]),
  (221, [253]), (222, [254]), (256, [257]), (258, [259]), (260, [261]), (262, [263]),
  (264, [265]), (266, [267]), (268, [269]), (270, [271]), (272, [273]), (274, [275]),
  (276, [277]), (278, [279]), (280, [281]), (282, [283]), (284, [285]), (286, [287]),
  (288, [289]), (290, [291]), (292, [293]), (294, [295]), (296, [297]), (298, [299]),
  (300, [301]), (302, [303]), (304, [105, 775]), (306, [307]), (308, [309]), (310, [311]),
  (313, [314]), (315, [316]), (317, [318]), (319, [320]), (321, [322]), (323, [324]),
  (325, [326]), (327, [328]), (330, [331]), (332, [333]), (334, [335]), (336, [337]),
  (338, [339]), (340, [341]), (342, [343]), (344, [345]), (346, [347]), (348, [349]),
  (350, [351]), (352, [353]), (354, [355]), (356, [357]), (358, [359]), (360, [361]),
  (362, [363]), (364, [365]), (366, [367]), (368, [369]), (370, [371]), (372, [373]),
  (374, [375]), (376, [255]), (377, [378]), (379, [380]), (381, [382]), (385, [595]),
  (386, [387]), (388, [389]), (390, [596]), (391, [392]), (393, [598]), (394, [599]),
  (395, [396]), (398, [477]), (399, [601]), (400, [603]), (401, [402]), (403, [608]),
  (404, [611]), (406, [617]), (407, [616]), (408, [409]), (412, [623]), (413, [626]),
  (415, [629]), (416, [417]), (418, [419]), (420, [421]), (422, [640]), (423, [424]),
  (425, [643]), (428, [429]), (430, [648]), (431, [432]), (433, [650]), (434, [651])]

def pyLowerTable2 : List (Nat × List Nat) := [
  (435, [436]), (437, [438]), (439, [658]), (440, [441]), (444, [445]), (452, [454]),
  (453, [454]), (455, [457]), (456, [457]), (458, [460]), (459, [460]), (461, [462]),
  (463, [464]), (465, [466]), (467, [468]), (469, [470]), (471, [472]), (473, [474]),
  (475, [476]), (478, [479]), (480, [481]), (482, [483]), (484, [485]), (486, [487]),
  (488, [489]), (490, [491]), (492, [493]), (494, [495]), (497, [499]), (498, [499]),
  (500, [501]), (502, [405]), (503, [447]), (504, [505]), (506, [507]), (508, [509]),
  (510, [511]), (512, [513]), (514, [515]), (516, [517]), (518, [519]), (520, [521]),
  (522, [523]), (524, [525]), (526, [527]), (528, [529]), (530, [531]), (532, [533]),
  (534, [535]), (536, [537]), (538, [539]), (540, [541]), (542, [543]), (544, [414]),
  (546, [547]), (548, [549]), (550, [551]), (552, [553]), (554, [555]), (556, [557]),
  (558, [559]), (560, [561]), (562, [563]), (570, [11365]), (571, [572]), (573, [410]),
  (574, [11366]), (577, [578]), (579, [384]), (580, [649]), (581, [652]), (582, [583]),
  (584, [585]), (586, [587]), (588, [589]), (590, [591]), (880, [881]), (882, [883]),
  (886, [887]), (895, [1011]), (902, [940]), (904, [941]), (905, [942]), (906, [943]),
  (908, [972]), (910, [973]), (911, [974]), (913, [945]), (914, [946]), (915, [947]),
  (916, [948]), (917, [949]), (918, [950]), (919, [951]), (920, [952]), (921, [953]),
  (922, [954]), (923, [955]), (924, [956]), (925, [957]), (926, [958]), (927, [959]),
  (928, [960]), (929, [961]), (931, [963]), (932, [964]), (933, [965]), (934, [966]),
  (935, [967]), (936, [968]), (937, [969]), (938, [970]), (939, [971]), (975, [983]),
  (984, [985]), (986, [987]), (988, [989]), (990, [991]), (992, [993]), (994, [995]),
  (996, [997]), (998, [999]), (1000, [1001]), (1002, [1003]), (1004, [1005]), (1006, [1007]),
  (1012, [952]), (1015, [1016]), (1017, [1010]), (1018, [1019]), (1021, [891]), (1022, [892]),
  (1023, [893]), (1024, [1104]), (1025, [1105]), (1026, [1106]), (1027, [1107]), (1028, [1108]),
  (1029, [1109]), (1030, [1110]), (1031, [1111]), (1032, [1112]), (1033, [1113]), (1034, [1114]),
  (1035, [1115]), (1036, [1116]), (1037, [1117]), (1038, [1118]), (1039, [1119]), (1040, [1072])]

def pyLowerTable3 : List (Nat × List Nat) := [
  (1041, [1073]), (1042, [1074]), (1043, [1075]), (1044, [1076]), (1045, [1077]), (1046, [1078]),
  (1047, [1079]), (1048, [1080]), (1049, [1081]), (1050, [1082]), (1051, [1083]), (1052, [1084]),
  (1053, [1085]), (1054, [1086]), (1055, [1087]), (1056, [1088]), (1057, [1089]), (1058, [1090]),
  (1059, [1091]), (1060, [1092]), (1061, [1093]), (1062, [1094]), (1063, [1095]), (1064, [1096]),
  (1065, [1097]), (1066, [1098]), (1067, [1099]), (1068, [1100]), (1069, [1101]), (1070, [1102]),
  (1071, [1103]), (1120, [1121]), (1122, [1123]), (1124, [1125]), (1126, [1127]), (1128, [1129]),
  (1130, [1131]), (1132, [1133]), (1134, [1135]), (1136, [1137]), (1138, [1139]), (1140, [1141]),
  (1142, [1143]), (1144, [1145]), (1146, [1147]), (1148, [1149]), (1150, [1151]), (1152, [1153]),
  (1162, [1163]), (1164, [1165]), (1166, [1167]), (1168, [1169]), (1170, [1171]), (1172, [1173]),
  (1174, [1175]), (1176, [1177]), (1178, [1179]), (1180, [1181]), (1182, [1183]), (1184, [1185]),
  (1186, [1187]), (1188, [1189]), (1190, [1191]), (1192, [1193]), (1194, [1195]), (1196, [1197]),
  (1198, [1199]), (1200, [1201]), (1202, [1203]), (1204, [1205]), (1206, [1207]), (1208, [1209]),
  (1210, [1211]), (1212, [1213]), (1214, [1215]), (1216, [1231]), (1217, [1218]), (1219, [1220]),
  (1221, [1222]), (1223, [1224]), (1225, [1226]), (1227, [1228]), (1229, [1230]), (1232, [1233]),
  (1234, [1235]), (1236, [1237]), (1238, [1239]), (1240, [1241]), (1242, [1243]), (1244, [1245]),
  (1246, [1247]), (1248, [1249]), (1250, [1251]), (1252, [1253]), (1254, [1255]), (1256, [1257]),
  (1258, [1259]), (1260, [1261]), (1262, [1263]), (1264, [1265]), (1266, [1267]), (1268, [1269]),
  (1270, [1271]), (1272, [1273]), (1274, [1275]), (1276, [1277]), (1278, [1279]), (1280, [1281]),
  (1282, [1283]), (1284, [1285]), (1286, [1287]), (1288, [1289]), (1290, [1291]), (1292, [1293]),
  (1294, [1295]), (1296, [1297]), (1298, [1299]), (1300, [1301]), (1302, [1303]), (1304, [1305]),
  (1306, [1307]), (1308, [1309]), (1310, [1311]), (1312, [1313]), (1314, [1315]), (1316, [1317]),
  (1318, [1319]), (1320, [1321]), (1322, [1323]), (1324, [1325]), (1326, [1327]), (1329, [1377]),
  (1330, [1378]), (1331, [1379]), (1332, [1380]), (1333, [1381]), (1334, [1382]), (1335, [1383]),
  (1336, [1384]), (1337, [1385]), (1338, [1386]), (1339, [1387]), (1340, [1388]), (1341, [1389]),
  (1342, [1390]), (1343, [1391]), (1344, [1392]), (1345, [1393]), (1346, [1394]), (1347, [1395])]

def pyLowerTable4 : List (Nat × List Nat) := [
  (1348, [1396]), (1349, [1397]), (1350, [1398]), (1351, [1399]), (1352, [1400]), (1353, [1401]),
  (1354, [1402]), (1355, [1403]), (1356, [1404]), (1357, [1405]), (1358, [1406]), (1359, [1407]),
  (1360, [1408]), (1361, [1409]), (1362, [1410]), (1363, [1411]), (1364, [1412]), (1365, [1413]),
  (1366, [1414]), (4256, [11520]), (4257, [11521]), (4258, [11522]), (4259, [11523]), (4260, [11524]),
  (4261, [11525]), (4262, [11526]), (4263, [11527]), (4264, [11528]), (4265, [11529]), (4266, [11530]),
  (4267, [11531]), (4268, [11532]), (4269, [11533]), (4270, [11534]), (4271, [11535]), (4272, [11536]),
  (4273, [11537]), (4274, [11538]), (4275, [11539]), (4276, [11540]), (4277, [11541]), (4278, [11542]),
  (4279, [11543]), (4280, [11544]), (4281, [11545]), (4282, [11546]), (4283, [11547]), (4284, [11548]),
  (4285, [11549]), (4286, [11550]), (4287, [11551]), (4288, [11552]), (4289, [11553]), (4290, [11554]),
  (4291, [11555]), (4292, [11556]), (4293, [11557]), (4295, [11559]), (4301, [11565]), (5024, [43888]),
  (5025, [43889]), (5026, [43890]), (5027, [43891]), (5028, [43892]), (5029, [43893]), (5030, [43894]),
  (5031, [43895]), (5032, [43896]), (5033, [43897]), (5034, [43898]), (5035, [43899]), (5036, [43900]),
  (5037, [43901]), (5038, [43902]), (5039, [43903]), (5040, [43904]), (5041, [43905]), (5042, [43906]),
  (5043, [43907]), (5044, [43908]), (5045, [43909]), (5046, [43910]), (5047, [43911]), (5048, [43912]),
  (5049, [43913]), (5050, [43914]), (5051, [43915]), (5052, [43916]), (5053, [43917]), (5054, [43918]),
  (5055, [43919]), (5056, [43920]), (5057, [43921]), (5058, [43922]), (5059, [43923]), (5060, [43924]),
  (5061, [43925]), (5062, [43926]), (5063, [43927]), (5064, [43928]), (5065, [43929]), (5066, [43930]),
  (5067, [43931]), (5068, [43932]), (5069, [43933]), (5070, [43934]), (5071, [43935]), (5072, [43936]),
  (5073, [43937]), (5074, [43938]), (5075, [43939]), (5076, [43940]), (5077, [43941]), (5078, [43942]),
  (5079, [43943]), (5080, [43944]), (5081, [43945]), (5082, [43946]), (5083, [43947]), (5084, [43948]),
  (5085, [43949]), (5086, [43950]), (5087, [43951]), (5088, [43952]), (5089, [43953]), (5090, [43954]),
  (5091, [43955]), (5092, [43956]), (5093, [43957]), (5094, [43958]), (5095, [43959]), (5096, [43960]),
  (5097, [43961]), (5098, [43962]), (5099, [43963]), (5100, [43964]), (5101, [43965]), (5102, [43966]),
  (5103, [43967]), (5104, [5112]), (5105, [5113]), (5106, [5114]), (5107, [5115]), (5108, [5116]),
  (5109, [5117]), (7312, [4304]), (7313, [4305]), (7314, [4306]), (7315, [4307]), (7316, [4308])]

def pyLowerTable5 : List (Nat × List Nat) := [
  (7317, [4309]), (7318, [4310]), (7319, [4311]), (7320, [4312]), (7321, [4313]), (7322, [4314]),
  (7323, [4315]), (7324, [4316]), (7325, [4317]), (7326, [4318]), (7327, [4319]), (7328, [4320]),
  (7329, [4321]), (7330, [4322]), (7331, [4323]), (7332, [4324]), (7333, [4325]), (7334, [4326]),
  (7335, [4327]), (7336, [4328]), (7337, [4329]), (7338, [4330]), (7339, [4331]), (7340, [4332]),
  (7341, [4333]), (7342, [4334]), (7343, [4335]), (7344, [4336]), (7345, [4337]), (7346, [4338]),
  (7347, [4339]), (7348, [4340]), (7349, [4341]), (7350, [4342]), (7351, [4343]), (7352, [4344]),
  (7353, [4345]), (7354, [4346]), (7357, [4349]), (7358, [4350]), (7359, [4351]), (7680, [7681]),
  (7682, [7683]), (7684, [7685]), (7686, [7687]), (7688, [7689]), (7690, [7691]), (7692, [7693]),
  (7694, [7695]), (7696, [7697]), (7698, [7699]), (7700, [7701]), (7702, [7703]), (7704, [7705]),
  (7706, [7707]), (7708, [7709]), (7710, [7711]), (7712, [7713]), (7714, [7715]), (7716, [7717]),
  (7718, [7719]), (7720, [7721]), (7722, [7723]), (7724, [7725]), (7726, [7727]), (7728, [7729]),
  (7730, [7731]), (7732, [7733]), (7734, [7735]), (7736, [7737]), (7738, [7739]), (7740, [7741]),
  (7742, [7743]), (7744, [7745]), (7746, [7747]), (7748, [7749]), (7750, [7751]), (7752, [7753]),
  (7754, [7755]), (7756, [7757]), (7758, [7759]), (7760, [7761]), (7762, [7763]), (7764, [7765]),
  (7766, [7767]), (7768, [7769]), (7770, [7771]), (7772, [7773]), (7774, [7775]), (7776, [7777]),
  (7778, [7779]), (7780, [7781]), (7782, [7783]), (7784, [7785]), (7786, [7787]), (7788, [7789]),
  (7790, [7791]), (7792, [7793]), (7794, [7795]), (7796, [7797]), (7798, [7799]), (7800, [7801]),
  (7802, [7803]), (7804, [7805]), (7806, [7807]), (7808, [7809]), (7810, [7811]), (7812, [7813]),
  (7814, [7815]), (7816, [7817]), (7818, [7819]), (7820, [7821]), (7822, [7823]), (7824, [7825]),
  (7826, [7827]), (7828, [7829]), (7838, [223]), (7840, [7841]), (7842, [7843]), (7844, [7845]),
  (7846, [7847]), (7848, [7849]), (7850, [7851]), (7852, [7853]), (7854, [7855]), (7856, [7857]),
  (7858, [7859]), (7860, [7861]), (7862, [7863]), (7864, [7865]), (7866, [7867]), (7868, [7869]),
  (7870, [7871]), (7872, [7873]), (7874, [7875]), (7876, [7877]), (7878, [7879]), (7880, [7881]),
  (7882, [7883]), (7884, [7885]), (7886, [7887]), (7888, [7889]), (7890, [7891]), (7892, [7893]),
  (7894, [7895]), (7896, [7897]), (7898, [7899]), (7900, [7901]), (7902, [7903]), (7904, [7905])]

def pyLowerTable6 : List (Nat × List Nat) := [
  (7906, [7907]), (7908, [7909]), (7910, [7911]), (7912, [7913]), (7914, [7915]), (7916, [7917]),
  (7918, [7919]), (7920, [7921]), (7922, [7923]), (7924, [7925]), (7926, [7927]), (7928, [7929]),
  (7930, [7931]), (7932, [7933]), (7934, [7935]), (7944, [7936]), (7945, [7937]), (7946, [7938]),
  (7947, [7939]), (7948, [7940]), (7949, [7941]), (7950, [7942]), (7951, [7943]), (7960, [7952]),
  (7961, [7953]), (7962, [7954]), (7963, [7955]), (7964, [7956]), (7965, [7957]), (7976, [7968]),
  (7977, [7969]), (7978, [7970]), (7979, [7971]), (7980, [7972]), (7981, [7973]), (7982, [7974]),
  (7983, [7975]), (7992, [7984]), (7993, [7985]), (7994, [7986]), (7995, [7987]), (7996, [7988]),
  (7997, [7989]), (7998, [7990]), (7999, [7991]), (8008, [8000]), (8009, [8001]), (8010, [8002]),
  (8011, [8003]), (8012, [8004]), (8013, [8005]), (8025, [8017]), (8027, [8019]), (8029, [8021]),
  (8031, [8023]), (8040, [8032]), (8041, [8033]), (8042, [8034]), (8043, [8035]), (8044, [8036]),
  (8045, [8037]), (8046, [8038]), (8047, [8039]), (8072, [8064]), (8073, [8065]), (8074, [8066]),
  (8075, [8067]), (8076, [8068]), (8077, [8069]), (8078, [8070]), (8079, [8071]), (8088, [8080]),
  (8089, [8081]), (8090, [8082]), (8091, [8083]), (8092, [8084]), (8093, [8085]), (8094, [8086]),
  (8095, [8087]), (8104, [8096]), (8105, [8097]), (8106, [8098]), (8107, [8099]), (8108, [8100]),
  (8109, [8101]), (8110, [8102]), (8111, [8103]), (8120, [8112]), (8121, [8113]), (8122, [8048]),
  (8123, [8049]), (8124, [8115]), (8136, [8050]), (8137, [8051]), (8138, [8052]), (8139, [8053]),
  (8140, [8131]), (8152, [8144]), (8153, [8145]), (8154, [8054]), (8155, [8055]), (8168, [8160]),
  (8169, [8161]), (8170, [8058]), (8171, [8059]), (8172, [8165]), (8184, [8056]), (8185, [8057]),
  (8186, [8060]), (8187, [8061]), (8188, [8179]), (8486, [969]), (8490, [107]), (8491, [229]),
  (8498, [8526]), (8544, [8560]), (8545, [8561]), (8546, [8562]), (8547, [8563]), (8548, [8564]),
  (8549, [8565]), (8550, [8566]), (8551, [8567]), (8552, [8568]), (8553, [8569]), (8554, [8570]),
  (8555, [8571]), (8556, [8572]), (8557, [8573]), (8558, [8574]), (8559, [8575]), (8579, [8580]),
  (9398, [9424]), (9399, [9425]), (9400, [9426]), (9401, [9427]), (9402, [9428]), (9403, [9429]),
  (9404, [9430]), (9405, [9431]), (9406, [9432]), (9407, [9433]), (9408, [9434]), (9409, [9435]),
  (9410, [9436]), (9411, [9437]), (9412, [9438]), (9413, [9439]), (9414, [9440]), (9415, [9441])]

def pyLowerTable7 : List (Nat × List Nat) := [
  (9416, [9442]), (9417, [9443]), (9418, [9444]), (9419, [9445]), (9420, [9446]), (9421, [9447]),
  (9422, [9448]), (9423, [9449]), (11264, [11312]), (11265, [11313]), (11266, [11314]), (11267, [11315]),
  (11268, [11316]), (11269, [11317]), (11270, [11318]), (11271, [11319]), (11272, [11320]), (11273, [11321]),
  (11274, [11322]), (11275, [11323]), (11276, [11324]), (11277, [11325]), (11278, [11326]), (11279, [11327]),
  (11280, [11328]), (11281, [11329]), (11282, [11330]), (11283, [11331]), (11284, [11332]), (11285, [11333]),
  (11286, [11334]), (11287, [11335]), (11288, [11336]), (11289, [11337]), (11290, [11338]), (11291, [11339]),
  (11292, [11340]), (11293, [11341]), (11294, [11342]), (11295, [11343]), (11296, [11344]), (11297, [11345]),
  (11298, [11346]), (11299, [11347]), (11300, [11348]), (11301, [11349]), (11302, [11350]), (11303, [11351]),
  (11304, [11352]), (11305, [11353]), (11306, [11354]), (11307, [11355]), (11308, [11356]), (11309, [11357]),
  (11310, [11358]), (11311, [11359]), (11360, [11361]), (11362, [619]), (11363, [7549]), (11364, [637]),
  (11367, [11368]), (11369, [11370]), (11371, [11372]), (11373, [593]), (11374, [625]), (11375, [592]),
  (11376, [594]), (11378, [11379]), (11381, [11382]), (11390, [575]), (11391, [576]), (11392, [11393]),
  (11394, [11395]), (11396, [11397]), (11398, [11399]), (11400, [11401]), (11402, [11403]), (11404, [11405]),
  (11406, [11407]), (11408, [11409]), (11410, [11411]), (11412, [11413]), (11414, [11415]), (11416, [11417]),
  (11418, [11419]), (11420, [11421]), (11422, [11423]), (11424, [11425]), (11426, [11427]), (11428, [11429]),
  (11430, [11431]), (11432, [11433]), (11434, [11435]), (11436, [11437]), (11438, [11439]), (11440, [11441]),
  (11442, [11443]), (11444, [11445]), (11446, [11447]), (11448, [11449]), (11450, [11451]), (11452, [11453]),
  (11454, [11455]), (11456, [11457]), (11458, [11459]), (11460, [11461]), (11462, [11463]), (11464, [11465]),
  (11466, [11467]), (11468, [11469]), (11470, [11471]), (11472, [11473]), (11474, [11475]), (11476, [11477]),
  (11478, [11479]), (11480, [11481]), (11482, [11483]), (11484, [11485]), (11486, [11487]), (11488, [11489]),
  (11490, [11491]), (11499, [11500]), (11501, [11502]), (11506, [11507]), (42560, [42561]), (42562, [42563]),
  (42564, [42565]), (42566, [42567]), (42568, [42569]), (42570, [42571]), (42572, [42573]), (42574, [42575]),
  (42576, [42577]), (42578, [42579]), (42580, [42581]), (42582, [42583]), (42584, [42585]), (42586, [42587]),
  (42588, [42589]), (42590, [42591]), (42592, [42593]), (42594, [42595]), (42596, [42597]), (42598, [42599]),
  (42600, [42601]), (42602, [42603]), (42604, [42605]), (42624, [42625]), (42626, [42627]), (42628, [42629])]

def pyLowerTable8 : List (Nat × List Nat) := [
  (42630, [42631]), (42632, [42633]), (42634, [42635]), (42636, [42637]), (42638, [42639]), (42640, [42641]),
  (42642, [42643]), (42644, [42645]), (42646, [42647]), (42648, [42649]), (42650, [42651]), (42786, [42787]),
  (42788, [42789]), (42790, [42791]), (42792, [42793]), (42794, [42795]), (42796, [42797]), (42798, [42799]),
  (42802, [42803]), (42804, [42805]), (42806, [42807]), (42808, [42809]), (42810, [42811]), (42812, [42813]),
  (42814, [42815]), (42816, [42817]), (42818, [42819]), (42820, [42821]), (42822, [42823]), (42824, [42825]),
  (42826, [42827]), (42828, [42829]), (42830, [42831]), (42832, [42833]), (42834, [42835]), (42836, [42837]),
  (42838, [42839]), (42840, [42841]), (42842, [42843]), (42844, [42845]), (42846, [42847]), (42848, [42849]),
  (42850, [42851]), (42852, [42853]), (42854, [42855]), (42856, [42857]), (42858, [42859]), (42860, [42861]),
  (42862, [42863]), (42873, [42874]), (42875, [42876]), (42877, [7545]), (42878, [42879]), (42880, [42881]),
  (42882, [42883]), (42884, [42885]), (42886, [42887]), (42891, [42892]), (42893, [613]), (42896, [42897]),
  (42898, [42899]), (42902, [42903]), (42904, [42905]), (42906, [42907]), (42908, [42909]), (42910, [42911]),
  (42912, [42913]), (42914, [42915]), (42916, [42917]), (42918, [42919]), (42920, [42921]), (42922, [614]),
  (42923, [604]), (42924, [609]), (42925, [620]), (42926, [618]), (42928, [670]), (42929, [647]),
  (42930, [669]), (42931, [43859]), (42932, [42933]), (42934, [42935]), (42936, [42937]), (42938, [42939]),
  (42940, [42941]), (42942, [42943]), (42944, [42945]), (42946, [42947]), (42948, [42900]), (42949, [642]),
  (42950, [7566]), (42951, [42952]), (42953, [42954]), (42960, [42961]), (42966, [42967]), (42968, [42969]),
  (42997, [42998]), (65313, [65345]), (65314, [65346]), (65315, [65347]), (65316, [65348]), (65317, [65349]),
  (65318, [65350]), (65319, [65351]), (65320, [65352]), (65321, [65353]), (65322, [65354]), (65323, [65355]),
  (65324, [65356]), (65325, [65357]), (65326, [65358]), (65327, [65359]), (65328, [65360]), (65329, [65361]),
  (65330, [65362]), (65331, [65363]), (65332, [65364]), (65333, [65365]), (65334, [65366]), (65335, [65367]),
  (65336, [65368]), (65337, [65369]), (65338, [65370]), (66560, [66600]), (66561, [66601]), (66562, [66602]),
  (66563, [66603]), (66564, [66604]), (66565, [66605]), (66566, [66606]), (66567, [66607]), (66568, [66608]),
  (66569, [66609]), (66570, [66610]), (66571, [66611]), (66572, [66612]), (66573, [66613]), (66574, [66614]),
  (66575, [66615]), (66576, [66616]), (66577, [66617]), (66578, [66618]), (66579, [66619]), (66580, [66620]),
  (66581, [66621]), (66582, [66622]), (66583, [66623]), (66584, [66624]), (66585, [66625]), (66586, [66626])]

def pyLowerTable9 : List (Nat × List Nat) := [
  (66587, [66627]), (66588, [66628]), (66589, [66629]), (66590, [66630]), (66591, [66631]), (66592, [66632]),
  (66593, [66633]), (66594, [66634]), (66595, [66635]), (66596, [66636]), (66597, [66637]), (66598, [66638]),
  (66599, [66639]), (66736, [66776]), (66737, [66777]), (66738, [66778]), (66739, [66779]), (66740, [66780]),
  (66741, [66781]), (66742, [66782]), (66743, [66783]), (66744, [66784]), (66745, [66785]), (66746, [66786]),
  (66747, [66787]), (66748, [66788]), (66749, [66789]), (66750, [66790]), (66751, [66791]), (66752, [66792]),
  (66753, [66793]), (66754, [66794]), (66755, [66795]), (66756, [66796]), (66757, [66797]), (66758, [66798]),
  (66759, [66799]), (66760, [66800]), (66761, [66801]), (66762, [66802]), (66763, [66803]), (66764, [66804]),
  (66765, [66805]), (66766, [66806]), (66767, [66807]), (66768, [66808]), (66769, [66809]), (66770, [66810]),
  (66771, [66811]), (66928, [66967]), (66929, [66968]), (66930, [66969]), (66931, [66970]), (66932, [66971]),
  (66933, [66972]), (66934, [66973]), (66935, [66974]), (66936, [66975]), (66937, [66976]), (66938, [66977]),
  (66940, [66979]), (66941, [66980]), (66942, [66981]), (66943, [66982]), (66944, [66983]), (66945, [66984]),
  (66946, [66985]), (66947, [66986]), (66948, [66987]), (66949, [66988]), (66950, [66989]), (66951, [66990]),
  (66952, [66991]), (66953, [66992]), (66954, [66993]), (66956, [66995]), (66957, [66996]), (66958, [66997]),
  (66959, [66998]), (66960, [66999]), (66961, [67000]), (66962, [67001]), (66964, [67003]), (66965, [67004]),
  (68736, [68800]), (68737, [68801]), (68738, [68802]), (68739, [68803]), (68740, [68804]), (68741, [68805]),
  (68742, [68806]), (68743, [68807]), (68744, [68808]), (68745, [68809]), (68746, [68810]), (68747, [68811]),
  (68748, [68812]), (68749, [68813]), (68750, [68814]), (68751, [68815]), (68752, [68816]), (68753, [68817]),
  (68754, [68818]), (68755, [68819]), (68756, [68820]), (68757, [68821]), (68758, [68822]), (68759, [68823]),
  (68760, [68824]), (68761, [68825]), (68762, [68826]), (68763, [68827]), (68764, [68828]), (68765, [68829]),
  (68766, [68830]), (68767, [68831]), (68768, [68832]), (68769, [68833]), (68770, [68834]), (68771, [68835]),
  (68772, [68836]), (68773, [68837]), (68774, [68838]), (68775, [68839]), (68776, [68840]), (68777, [68841]),
  (68778, [68842]), (68779, [68843]), (68780, [68844]), (68781, [68845]), (68782, [68846]), (68783, [68847]),
  (68784, [68848]), (68785, [68849]), (68786, [68850]), (71840, [71872]), (71841, [71873]), (71842, [71874]),
  (71843, [71875]), (71844, [71876]), (71845, [71877]), (71846, [71878]), (71847, [71879]), (71848, [71880]),
  (71849, [71881]), (71850, [71882]), (71851, [71883]), (71852, [71884]), (71853, [71885]), (71854, [71886])]

def pyLowerTable10 : List (Nat × List Nat) := [
  (71855, [71887]), (71856, [71888]), (71857, [71889]), (71858, [71890]), (71859, [71891]), (71860, [71892]),
  (71861, [71893]), (71862, [71894]), (71863, [71895]), (71864, [71896]), (71865, [71897]), (71866, [71898]),
  (71867, [71899]), (71868, [71900]), (71869, [71901]), (71870, [71902]), (71871, [71903]), (93760, [93792]),
  (93761, [93793]), (93762, [93794]), (93763, [93795]), (93764, [93796]), (93765, [93797]), (93766, [93798]),
  (93767, [93799]), (93768, [93800]), (93769, [93801]), (93770, [93802]), (93771, [93803]), (93772, [93804]),
  (93773, [93805]), (93774, [93806]), (93775, [93807]), (93776, [93808]), (93777, [93809]), (93778, [93810]),
  (93779, [93811]), (93780, [93812]), (93781, [93813]), (93782, [93814]), (93783, [93815]), (93784, [93816]),
  (93785, [93817]), (93786, [93818]), (93787, [93819]), (93788, [93820]), (93789, [93821]), (93790, [93822]),
  (93791, [93823]), (125184, [125218]), (125185, [125219]), (125186, [125220]), (125187, [125221]), (125188, [125222]),
  (125189, [125223]), (125190, [125224]), (125191, [125225]), (125192, [125226]), (125193, [125227]), (125194, [125228]),
  (125195, [125229]), (125196, [125230]), (125197, [125231]), (125198, [125232]), (125199, [125233]), (125200, [125234]),
  (125201, [125235]), (125202, [125236]), (125203, [125237]), (125204, [125238]), (125205, [125239]), (125206, [125240]),
  (125207, [125241]), (125208, [125242]), (125209, [125243]), (125210, [125244]), (125211, [125245]), (125212, [125246]),
  (125213, [125247]), (125214, [125248]), (125215, [125249]), (125216, [125250]), (125217, [125251])]

def pyLowerTable : List (Nat × List Nat) :=
  pyLowerTable1 ++ pyLowerTable2 ++ pyLowerTable3 ++ pyLowerTable4 ++ pyLowerTable5 ++ pyLowerTable6 ++ pyLowerTable7 ++ pyLowerTable8 ++ pyLowerTable9 ++ pyLowerTable10

/-- Python's `str.lower` on one character: the full Unicode lowercase
mapping; a character with no lowercase mapping is returned unchanged. -/
def pyLowerChar (c : Char) : List Char :=
  match pyLowerTree.find c.toNat with
  | some ns => ns.map Char.ofNat
  | none => [c]

/-- Python's `str.lower`. -/
def pyLower (s : String) : String := ⟨s.data.flatMap pyLowerChar⟩

/-- `normalize_name` from the script:
`name.lower().replace("_", "-").replace(".", "-")`.
`str.lower` is `pyLower`; each `str.replace` of a single-character pattern
is a per-character map. -/
def normalize_name (name : String) : String :=
  ⟨((pyLower name).data.map fun c => if c = '_' then '-' else c).map
      fun c => if c = '.' then '-' else c⟩

/-- The combined action of the two `replace` steps on one character of the
lowercased string. -/
def normChar (c : Char) : Char :=
  if c = '_' ∨ c = '.' then '-' else c

/-! ### The data model and the generators -/

/-- A wheel record from the manifest.  Each field models the presence or
absence of the corresponding key in the JSON object: the script reads
`filename` and `url` with `w[k]` (KeyError when absent) and `sha256` and
`upload_date` with `w.get(k, '')` (empty string when absent). -/
structure Wheel where
  filename : Option String
  url : Option String
  sha256 : Option String
  upload_date : Option String
deriving DecidableEq

/-- The sort key `(w.get('upload_date', ''), w['filename'])` used by
`generate_package_index`; the `filename` component is only meaningful when
the key is present (otherwise the script raises before sorting). -/
def wheelKey (w : Wheel) : String × String :=
  (w.upload_date.getD "", w.filename.getD "")

/-- The ordering used to model `sorted(wheels, key=..., reverse=True)`:
`w` may be placed before `v` exactly when the key of `w` is not smaller
than the key of `v`.  A stable sort with this total preorder is exactly
Python's stable descending sort. -/
def wheelDesc (w v : Wheel) : Prop := pyPairLt (wheelKey w) (wheelKey v) = false

instance : DecidableRel wheelDesc := fun w v => by
  unfold wheelDesc
  infer_instance

/-- `sorted_wheels` from the script: the wheel list sorted by
`(upload_date, filename)` descending, stably. -/
def sorted_wheels (wheels : List Wheel) : List Wheel :=
  List.insertionSort wheelDesc wheels

/-- `hash_suffix` from the script: `f"#sha256={sha256}" if sha256 else ""`. -/
def hash_suffix (sha256 : String) : String :=
  if sha256 ≠ "" then "#sha256=" ++ sha256 else ""

/-- The anchor line the loop body emits for one wheel, given that
`filename` and `url` are present; `Except.error ()` models the `KeyError`
raised by `wheel['filename']` / `wheel['url']` when the key is absent. -/
def wheelLine (w : Wheel) : Except Unit String :=
  match w.filename, w.url with
  | some filename, some url =>
    Except.ok ("    <a href=\"" ++ escape url ++ hash_suffix (w.sha256.getD "") ++ "\">"
      ++ escape filename ++ "</a><br>\n")
  | _, _ => Except.error ()

/-- The anchor line as a total function of the wheel (used to state what the
generated page contains when generation succeeds). -/
def lineOf (w : Wheel) : String :=
  "    <a href=\"" ++ escape (w.url.getD "") ++ hash_suffix (w.sha256.getD "") ++ "\">"
    ++ escape (w.filename.getD "") ++ "</a><br>\n"

/-- The fixed HTML prologue of a package page, with the escaped display name
interpolated in the `<title>` and `<h1>`. -/
def pkgHeader (package_name : String) : String :=
  "<!DOCTYPE html>\n<html>\n<head>\n    <meta charset=\"utf-8\">\n    <title>Links for "
    ++ escape package_name
    ++ "</title>\n</head>\n<body>\n    <h1>Links for "
    ++ escape package_name ++ "</h1>\n"

/-- The fixed HTML epilogue of both generated documents. -/
def htmlFooter : String := "</body>\n</html>\n"

/-- The `for wheel in sorted_wheels` loop: successively appends one anchor
line per wheel to the accumulated document, propagating a `KeyError`. -/
def addLines : List Wheel → String → Except Unit String
  | [], acc => Except.ok acc
  | w :: ws, acc =>
    match wheelLine w with
    | Except.error e => Except.error e
    | Except.ok line => addLines ws (acc ++ line)

/-- `generate_package_index` from the script.  Computing the sort keys
raises `KeyError` first when some wheel lacks `'filename'`; otherwise the
wheels are sorted descending and one anchor line is emitted per wheel
(raising `KeyError` when `'url'` is absent). -/
def generate_package_index (package_name : String) (wheels : List Wheel) :
    Except Unit String :=
  if wheels.any fun w => w.filename.isNone then Except.error ()
  else
    match addLines (sorted_wheels wheels) (pkgHeader package_name) with
    | Except.error e => Except.error e
    | Except.ok body => Except.ok (body ++ htmlFooter)


/-- The per-package value in the manifest: the script reads its wheel list
with `package_data.get('wheels', [])`. -/
structure PackageData where
  wheels : Option (List Wheel)
deriving DecidableEq

/-- The ordering used to model `sorted(packages.keys())` (ascending, plain
string comparison): `a` may be placed before `b` exactly when `b` is not
smaller than `a`. -/
def nameAsc (a b : String) : Prop := pyStrLt b a = false

instance : DecidableRel nameAsc := fun a b => by
  unfold nameAsc
  infer_instance

/-- `sorted_packages` from the script: the package display names sorted
alphabetically (ascending). -/
def sorted_packages (packages : List (String × PackageData)) : List String :=
  List.insertionSort nameAsc (packages.map Prod.fst)

/-- The fixed HTML prologue of the root index page. -/
def rootHeader : String :=
  "<!DOCTYPE html>\n<html>\n<head>\n    <meta charset=\"utf-8\">\n    <title>DGX Spark Wheels - Simple Index</title>\n</head>\n<body>\n    <h1>DGX Spark Wheels - Simple Index</h1>\n    <p>Python wheels built for aarch64 DGX systems</p>\n"

/-- The anchor line the root index emits for one package: the raw normalized
name as the link target, the escaped display name as the link text. -/
def rootLine (package_name : String) : String :=
  "    <a href=\"" ++ normalize_name package_name ++ "/\">" ++ escape package_name
    ++ "</a><br>\n"

/-- `generate_root_index` from the script. -/
def generate_root_index (packages : List (String × PackageData)) : String :=
  rootHeader ++ String.join ((sorted_packages packages).map rootLine) ++ htmlFooter

/-- The state of the `packages.json` input as the driver sees it: the file
may be absent, present but not valid JSON, or parsed, in which case the
`'packages'` key may be absent (`data.get('packages', \x7b\x7d)` then yields the
empty mapping).  The mapping itself is modelled as an ordered association
list, like a Python dict. -/
inductive ManifestFile where
  | absent
  | unparsable
  | parsed (packagesField : Option (List (String × PackageData)))
deriving DecidableEq

/-- The observable outcome of one driver run: the process exit status
(`1` both for the explicit `return 1` and for an uncaught exception), whether
the empty-manifest warning was printed, and the files written, in order, as
(path, contents) pairs relative to the repository root. -/
structure RunResult where
  exitCode : Nat
  warned : Bool
  files : List (String × String)
deriving DecidableEq

/-- The per-package loop of `main`: writes one `index/<normalized>/index.html`
per package; a `KeyError` escaping `generate_package_index` aborts the loop
(files already written stay written, the rest are not). -/
def writePackages : List (String × PackageData) → Except (List (String × String)) (List (String × String))
  | [] => Except.ok []
  | (package_name, package_data) :: rest =>
    match generate_package_index package_name (package_data.wheels.getD []) with
    | Except.error _ => Except.error []
    | Except.ok html =>
      match writePackages rest with
      | Except.error fs =>
        Except.error (("index/" ++ normalize_name package_name ++ "/index.html", html) :: fs)
      | Except.ok fs =>
        Except.ok (("index/" ++ normalize_name package_name ++ "/index.html", html) :: fs)

/-- `main` from the script, as a pure transcript of one run over the modelled
input state. -/
def Script.main (m : ManifestFile) : RunResult :=
  match m with
  | ManifestFile.absent => ⟨1, false, []⟩
  | ManifestFile.unparsable => ⟨1, false, []⟩
  | ManifestFile.parsed packagesField =>
    match writePackages (packagesField.getD []) with
    | Except.error fs =>
      ⟨1, (packagesField.getD []).isEmpty,
        ("index/index.html", generate_root_index (packagesField.getD [])) :: fs⟩
    | Except.ok fs =>
      ⟨0, (packagesField.getD []).isEmpty,
        ("index/index.html", generate_root_index (packagesField.getD [])) :: fs⟩

/-- Every wheel record of the manifest carries both required keys
`'filename'` and `'url'` (the shape §3 of the spec requires). -/
def ManifestFile.wheelsComplete : ManifestFile → Prop
  | ManifestFile.absent => True
  | ManifestFile.unparsable => True
  | ManifestFile.parsed packagesField =>
    ∀ p ∈ packagesField.getD [], ∀ w ∈ (p.2.wheels.getD []), w.filename.isSome ∧ w.url.isSome

instance : ∀ m : ManifestFile, Decidable m.wheelsComplete := fun m => by
  unfold ManifestFile.wheelsComplete
  cases m <;> infer_instance

/-- Occurrences of one character in a string. -/
def countChar (c : Char) (s : String) : Nat := s.data.count c

instance : DecidableEq (Except Unit String) := fun a b =>
  match a, b with
  | Except.ok x, Except.ok y =>
    if h : x = y then isTrue (by rw [h]) else isFalse (by intro hc; injection hc; contradiction)
  | Except.error x, Except.error y => isTrue (by cases x; cases y; rfl)
  | Except.ok _, Except.error _ => isFalse (by intro hc; injection hc)
  | Except.error _, Except.ok _ => isFalse (by intro hc; injection hc)


/-! ### Theorems -/

/-! #### Facts about characters and `normalize_name` -/

theorem char_toNat_ofNat_isValid (n : Nat)
    (h : n < 0xd800 ∨ (0xdfff < n ∧ n < 0x110000)) : (Char.ofNat n).toNat = n := by
  unfold Char.ofNat
  rw [dif_pos h]
  simp [Char.ofNatAux, Char.toNat, UInt32.ofNat', UInt32.toNat]

theorem LowerTree.find_allNodes {p : Nat → List Nat → Bool} :
    ∀ t : LowerTree, t.allNodes p = true →
      ∀ {n : Nat} {v : List Nat}, t.find n = some v → p n v = true
  | LowerTree.leaf, _, _, _, h => by simp [LowerTree.find] at h
  | LowerTree.node l k v' r, hall, n, v, h => by
    rw [LowerTree.allNodes] at hall
    simp only [Bool.and_eq_true] at hall
    rw [LowerTree.find] at h
    by_cases h1 : n < k
    · rw [if_pos h1] at h
      exact LowerTree.find_allNodes l hall.1.2 h
    · rw [if_neg h1] at h
      by_cases h2 : k < n
      · rw [if_pos h2] at h
        exact LowerTree.find_allNodes r hall.2 h
      · rw [if_neg h2] at h
        have hk : n = k := Nat.le_antisymm (Nat.not_lt.mp h2) (Nat.not_lt.mp h1)
        have hv := Option.some.inj h
        subst hk
        subst hv
        exact hall.1.1

/-- Every code point in the image of some lowercase mapping is a valid
scalar value, has no lowercase mapping of its own (Unicode lowercasing is
idempotent), and is not one of the separators `'_'` (95) and `'.'` (46). -/
theorem pyLowerTree_facts :
    (pyLowerTree.allNodes fun _ v =>
      v.all fun m =>
        (decide (m < 0xd800) || (decide (0xdfff < m) && decide (m < 0x110000)))
        && (pyLowerTree.find m).isNone
        && decide (m ≠ 95) && decide (m ≠ 46)) = true := by decide

/-- The search tree and the flat table carry the same entries. -/
theorem pyLowerTree_matches_table :
    (pyLowerTable.all fun q => pyLowerTree.find q.1 == some q.2) = true
    ∧ pyLowerTree.size = pyLowerTable.length :=
  ⟨by decide, by decide⟩

theorem pyLowerChar_fixed (c e : Char) (he : e ∈ pyLowerChar c) : pyLowerChar e = [e] := by
  unfold pyLowerChar at he ⊢
  cases hl : pyLowerTree.find c.toNat with
  | none =>
    rw [hl] at he
    have hec : e = c := by simpa using he
    subst hec
    rw [hl]
  | some ns =>
    rw [hl] at he
    obtain ⟨m, hm, rfl⟩ := List.mem_map.mp he
    have hfact := LowerTree.find_allNodes pyLowerTree pyLowerTree_facts hl
    rw [List.all_eq_true] at hfact
    have h2 := hfact m hm
    simp only [Bool.and_eq_true, Bool.or_eq_true, decide_eq_true_eq,
      Option.isNone_iff_eq_none] at h2
    obtain ⟨⟨⟨hvalid, hnone⟩, _⟩, _⟩ := h2
    rw [char_toNat_ofNat_isValid m (by omega), hnone]

theorem pyLowerChar_sep (c : Char) (h : '_' ∈ pyLowerChar c ∨ '.' ∈ pyLowerChar c) :
    c = '_' ∨ c = '.' := by
  unfold pyLowerChar at h
  cases hl : pyLowerTree.find c.toNat with
  | none =>
    rw [hl] at h
    rcases h with h | h
    · have hc : '_' = c := by simpa using h
      exact Or.inl hc.symm
    · have hc : '.' = c := by simpa using h
      exact Or.inr hc.symm
  | some ns =>
    rw [hl] at h
    exfalso
    have hfact := LowerTree.find_allNodes pyLowerTree pyLowerTree_facts hl
    rw [List.all_eq_true] at hfact
    rcases h with h | h
    · obtain ⟨m, hm, heq⟩ := List.mem_map.mp h
      have h2 := hfact m hm
      simp only [Bool.and_eq_true, Bool.or_eq_true, decide_eq_true_eq,
        Option.isNone_iff_eq_none] at h2
      obtain ⟨⟨⟨hvalid, _⟩, h95⟩, _⟩ := h2
      have hnat := congrArg Char.toNat heq
      rw [char_toNat_ofNat_isValid m (by omega)] at hnat
      exact h95 hnat
    · obtain ⟨m, hm, heq⟩ := List.mem_map.mp h
      have h2 := hfact m hm
      simp only [Bool.and_eq_true, Bool.or_eq_true, decide_eq_true_eq,
        Option.isNone_iff_eq_none] at h2
      obtain ⟨⟨⟨hvalid, _⟩, _⟩, h46⟩ := h2
      have hnat := congrArg Char.toNat heq
      rw [char_toNat_ofNat_isValid m (by omega)] at hnat
      exact h46 hnat

theorem pyLowerChar_hyphen : pyLowerChar '-' = ['-'] := by decide

theorem pyLowerChar_underscore : pyLowerChar '_' = ['_'] := by decide

theorem pyLowerChar_period : pyLowerChar '.' = ['.'] := by decide

theorem flatMap_eq_self {f : Char → List Char} :
    ∀ l : List Char, (∀ x ∈ l, f x = [x]) → l.flatMap f = l
  | [], _ => rfl
  | x :: xs, h => by
    rw [List.flatMap_cons, h x (List.mem_cons_self x xs),
      flatMap_eq_self xs (fun y hy => h y (List.mem_cons_of_mem x hy))]
    rfl

theorem normalize_name_data (s : String) :
    (normalize_name s).data = (s.data.flatMap pyLowerChar).map normChar := by
  show ((pyLower s).data.map _).map _ = _
  simp only [List.map_map]
  show ((s.data.flatMap pyLowerChar).map _) = _
  congr 1
  funext c
  simp only [Function.comp, normChar]
  by_cases h1 : c = '_'
  · subst h1
    rfl
  · by_cases h2 : c = '.'
    · subst h2
      rfl
    · rw [if_neg h1, if_neg h2, if_neg (by rintro (h | h) <;> [exact h1 h; exact h2 h])]

theorem normChar_normChar (c : Char) : normChar (normChar c) = normChar c := by
  unfold normChar
  by_cases h : c = '_' ∨ c = '.'
  · rw [if_pos h]
    rfl
  · rw [if_neg h, if_neg h]

/-! ### Order facts about the Python comparisons -/

theorem pyCharsLt_cons (a b : Char) (as bs : List Char) :
    pyCharsLt (a :: as) (b :: bs) = true ↔ a < b ∨ (a = b ∧ pyCharsLt as bs = true) := by
  simp only [pyCharsLt]
  rcases lt_trichotomy a b with h | h | h
  · simp [h]
  · subst h
    simp
  · have h1 : ¬ a < b := lt_asymm h
    have h2 : a ≠ b := ne_of_gt h
    rw [if_neg h1, if_pos h]
    simp [h1, h2]

theorem pyCharsLt_asymm :
    ∀ a b : List Char, pyCharsLt a b = true → pyCharsLt b a = true → False
  | [], [], h, _ => by simp [pyCharsLt] at h
  | [], _ :: _, _, h' => by simp [pyCharsLt] at h'
  | _ :: _, [], h, _ => by simp [pyCharsLt] at h
  | a :: as, b :: bs, h, h' => by
    rw [pyCharsLt_cons] at h h'
    rcases h with h | ⟨rfl, h⟩
    · rcases h' with h' | ⟨rfl, _⟩
      · exact lt_asymm h h'
      · exact lt_irrefl _ h
    · rcases h' with h' | ⟨_, h'⟩
      · exact lt_irrefl _ h'
      · exact pyCharsLt_asymm as bs h h'

theorem pyCharsLt_trans :
    ∀ a b c : List Char, pyCharsLt a b = true → pyCharsLt b c = true → pyCharsLt a c = true
  | [], [], _, h1, _ => by simp [pyCharsLt] at h1
  | _ :: _, [], _, h1, _ => by simp [pyCharsLt] at h1
  | _, _ :: _, [], _, h2 => by simp [pyCharsLt] at h2
  | [], _ :: _, _ :: _, _, _ => by simp [pyCharsLt]
  | a :: as, b :: bs, c :: cs, h1, h2 => by
    rw [pyCharsLt_cons] at h1 h2 ⊢
    rcases h1 with h1 | ⟨rfl, h1⟩
    · rcases h2 with h2 | ⟨rfl, _⟩
      · exact Or.inl (lt_trans h1 h2)
      · exact Or.inl h1
    · rcases h2 with h2 | ⟨rfl, h2⟩
      · exact Or.inl h2
      · exact Or.inr ⟨rfl, pyCharsLt_trans as bs cs h1 h2⟩

theorem pyCharsLt_total (a b : List Char) :
    pyCharsLt a b = true ∨ a = b ∨ pyCharsLt b a = true := by
  induction a generalizing b with
  | nil =>
    cases b with
    | nil => simp [pyCharsLt]
    | cons b bs => simp [pyCharsLt]
  | cons a as ih =>
    cases b with
    | nil => simp [pyCharsLt]
    | cons b bs =>
      rcases lt_trichotomy a b with h | h | h
      · exact Or.inl (by rw [pyCharsLt_cons]; exact Or.inl h)
      · subst h
        rcases ih bs with h | h | h
        · exact Or.inl (by rw [pyCharsLt_cons]; exact Or.inr ⟨rfl, h⟩)
        · subst h
          exact Or.inr (Or.inl rfl)
        · exact Or.inr (Or.inr (by rw [pyCharsLt_cons]; exact Or.inr ⟨rfl, h⟩))
      · exact Or.inr (Or.inr (by rw [pyCharsLt_cons]; exact Or.inl h))

theorem pyStrLt_asymm (a b : String) : pyStrLt a b = true → pyStrLt b a = true → False :=
  pyCharsLt_asymm a.data b.data

theorem pyStrLt_trans (a b c : String) :
    pyStrLt a b = true → pyStrLt b c = true → pyStrLt a c = true :=
  pyCharsLt_trans a.data b.data c.data

theorem pyStrLt_total (a b : String) :
    pyStrLt a b = true ∨ a = b ∨ pyStrLt b a = true := by
  rcases pyCharsLt_total a.data b.data with h | h | h
  · exact Or.inl h
  · exact Or.inr (Or.inl (String.ext h))
  · exact Or.inr (Or.inr h)

theorem pyPairLt_asymm (a b : String × String) :
    pyPairLt a b = true → pyPairLt b a = true → False := by
  unfold pyPairLt
  simp only [Bool.or_eq_true, Bool.and_eq_true, beq_iff_eq]
  rintro (h1 | ⟨e1, h1⟩) (h2 | ⟨e2, h2⟩)
  · exact pyStrLt_asymm _ _ h1 h2
  · rw [e2] at h1
    exact pyStrLt_asymm _ _ h1 h1
  · rw [e1] at h2
    exact pyStrLt_asymm _ _ h2 h2
  · exact pyStrLt_asymm _ _ h1 h2

theorem pyPairLt_trans (a b c : String × String) :
    pyPairLt a b = true → pyPairLt b c = true → pyPairLt a c = true := by
  unfold pyPairLt
  simp only [Bool.or_eq_true, Bool.and_eq_true, beq_iff_eq]
  rintro (h1 | ⟨e1, h1⟩) (h2 | ⟨e2, h2⟩)
  · exact Or.inl (pyStrLt_trans _ _ _ h1 h2)
  · rw [e2] at h1
    exact Or.inl h1
  · rw [e1]
    exact Or.inl h2
  · exact Or.inr ⟨e1.trans e2, pyStrLt_trans _ _ _ h1 h2⟩

theorem pyPairLt_total (a b : String × String) :
    pyPairLt a b = true ∨ a = b ∨ pyPairLt b a = true := by
  rcases pyStrLt_total a.1 b.1 with h | h | h
  · left
    simp [pyPairLt, h]
  · rcases pyStrLt_total a.2 b.2 with h2 | h2 | h2
    · left
      simp [pyPairLt, h, h2]
    · right
      left
      exact Prod.ext h h2
    · right
      right
      simp [pyPairLt, h.symm, h2]
  · right
    right
    simp [pyPairLt, h]

/-! #### The sort orders are total preorders -/

instance : IsTotal Wheel wheelDesc := by
  constructor
  intro a b
  unfold wheelDesc
  rw [Bool.eq_false_iff, Bool.eq_false_iff]
  rcases pyPairLt_total (wheelKey a) (wheelKey b) with h | h | h
  · exact Or.inr fun h2 => pyPairLt_asymm _ _ h h2
  · refine Or.inl fun h2 => ?_
    rw [h] at h2
    exact pyPairLt_asymm _ _ h2 h2
  · exact Or.inl fun h2 => pyPairLt_asymm _ _ h2 h

instance : IsTrans Wheel wheelDesc := by
  constructor
  intro a b c hab hbc
  unfold wheelDesc at hab hbc ⊢
  rw [Bool.eq_false_iff] at hab hbc ⊢
  intro hac
  rcases pyPairLt_total (wheelKey c) (wheelKey b) with h1 | h1 | h1
  · exact hab (pyPairLt_trans _ _ _ hac h1)
  · rw [h1] at hac
    exact hab hac
  · exact hbc h1


/-! #### String helpers -/

theorem foldl_append_data :
    ∀ (l : List String) (acc : String),
      (l.foldl (fun r s => r ++ s) acc).data = acc.data ++ (l.map String.data).flatten
  | [], acc => by simp
  | s :: l, acc => by
    rw [List.foldl_cons, foldl_append_data l (acc ++ s)]
    simp [String.data_append]

theorem join_data (l : List String) :
    (String.join l).data = (l.map String.data).flatten := by
  show (l.foldl (fun r s => r ++ s) "").data = _
  rw [foldl_append_data]
  rfl

theorem join_cons (s : String) (l : List String) :
    String.join (s :: l) = s ++ String.join l :=
  String.ext (by simp [join_data, String.data_append])

theorem mem_data_infix_join {s : String} {l : List String} (h : s ∈ l) :
    s.data <:+: (String.join l).data := by
  rw [join_data]
  exact List.infix_of_mem_flatten (List.mem_map_of_mem String.data h)

theorem countChar_append (c : Char) (s t : String) :
    countChar c (s ++ t) = countChar c s + countChar c t := by
  unfold countChar
  rw [String.data_append, List.count_append]

/-! #### The escaper emits no raw markup characters -/

theorem escapeChar_safe (c : Char) :
    '<' ∉ (escapeChar c).data ∧ '>' ∉ (escapeChar c).data ∧ '"' ∉ (escapeChar c).data := by
  unfold escapeChar
  by_cases h1 : c = '&'
  · rw [if_pos h1]
    decide
  rw [if_neg h1]
  by_cases h2 : c = '<'
  · rw [if_pos h2]
    decide
  rw [if_neg h2]
  by_cases h3 : c = '>'
  · rw [if_pos h3]
    decide
  rw [if_neg h3]
  by_cases h4 : c = '"'
  · rw [if_pos h4]
    decide
  rw [if_neg h4]
  by_cases h5 : c = apos
  · rw [if_pos h5]
    decide
  rw [if_neg h5]
  have hd : (String.singleton c).data = [c] := rfl
  rw [hd]
  simp only [List.mem_singleton]
  exact ⟨fun h => h2 h.symm, fun h => h3 h.symm, fun h => h4 h.symm⟩

theorem escape_not_mem {x : Char} (hx : x = '<' ∨ x = '>' ∨ x = '"') (s : String) :
    x ∉ (escape s).data := by
  intro hmem
  unfold escape at hmem
  rw [join_data, List.map_map] at hmem
  obtain ⟨l, hl, hcl⟩ := List.mem_flatten.mp hmem
  obtain ⟨c, _, rfl⟩ := List.mem_map.mp hl
  have h := escapeChar_safe c
  rcases hx with rfl | rfl | rfl
  · exact h.1 hcl
  · exact h.2.1 hcl
  · exact h.2.2 hcl

theorem countChar_escape {x : Char} (hx : x = '<' ∨ x = '>' ∨ x = '"') (s : String) :
    countChar x (escape s) = 0 :=
  List.count_eq_zero.mpr (escape_not_mem hx s)

theorem countChar_pkgHeader {x : Char} (hx : x = '<' ∨ x = '>' ∨ x = '"')
    (name₁ name₂ : String) : countChar x (pkgHeader name₁) = countChar x (pkgHeader name₂) := by
  unfold pkgHeader
  simp only [countChar_append, countChar_escape hx]

/-! #### Characterizing the package page generator -/

theorem wheelLine_eq (w : Wheel) (hf : w.filename.isSome) (hu : w.url.isSome) :
    wheelLine w = Except.ok (lineOf w) := by
  obtain ⟨f, hf⟩ := Option.isSome_iff_exists.mp hf
  obtain ⟨u, hu⟩ := Option.isSome_iff_exists.mp hu
  unfold wheelLine lineOf
  rw [hf, hu]
  rfl

theorem wheelLine_err (w : Wheel) (h : ¬(w.filename.isSome ∧ w.url.isSome)) :
    wheelLine w = Except.error () := by
  unfold wheelLine
  cases hf : w.filename with
  | none => rfl
  | some f =>
    cases hu : w.url with
    | none => rfl
    | some u =>
      exact absurd ⟨by rw [hf]; rfl, by rw [hu]; rfl⟩ h

theorem addLines_ok :
    ∀ (l : List Wheel) (acc : String),
      (∀ w ∈ l, w.filename.isSome ∧ w.url.isSome) →
      addLines l acc = Except.ok (acc ++ String.join (l.map lineOf))
  | [], acc, _ => by
    simp [addLines, String.join, String.append_empty]
  | w :: ws, acc, h => by
    have hw := h w (List.mem_cons_self w ws)
    rw [addLines, wheelLine_eq w hw.1 hw.2]
    show addLines ws (acc ++ lineOf w) = _
    rw [addLines_ok ws (acc ++ lineOf w) (fun v hv => h v (List.mem_cons_of_mem w hv))]
    rw [List.map_cons, join_cons, String.append_assoc]

theorem addLines_err :
    ∀ (l : List Wheel) (acc : String),
      (∃ w ∈ l, ¬(w.filename.isSome ∧ w.url.isSome)) →
      addLines l acc = Except.error ()
  | [], _, h => by
    obtain ⟨w, hw, _⟩ := h
    exact absurd hw (List.not_mem_nil w)
  | w :: ws, acc, h => by
    by_cases hw : w.filename.isSome ∧ w.url.isSome
    · rw [addLines, wheelLine_eq w hw.1 hw.2]
      obtain ⟨v, hv, hvbad⟩ := h
      rcases List.mem_cons.mp hv with rfl | hv
      · exact absurd hw hvbad
      · exact addLines_err ws (acc ++ lineOf w) ⟨v, hv, hvbad⟩
    · rw [addLines, wheelLine_err w hw]

theorem sorted_wheels_perm (wheels : List Wheel) : (sorted_wheels wheels).Perm wheels :=
  List.perm_insertionSort wheelDesc wheels

theorem sorted_wheels_sorted (wheels : List Wheel) :
    List.Sorted wheelDesc (sorted_wheels wheels) :=
  List.sorted_insertionSort wheelDesc wheels

theorem generate_package_index_ok (package_name : String) (wheels : List Wheel)
    (h : ∀ w ∈ wheels, w.filename.isSome ∧ w.url.isSome) :
    generate_package_index package_name wheels
      = Except.ok (pkgHeader package_name
          ++ String.join ((sorted_wheels wheels).map lineOf) ++ htmlFooter) := by
  unfold generate_package_index
  have hnone : (wheels.any fun w => w.filename.isNone) = false := by
    rw [Bool.eq_false_iff]
    intro hc
    obtain ⟨w, hw, hwn⟩ := List.any_eq_true.mp hc
    have := (h w hw).1
    rw [Option.isNone_iff_eq_none.mp hwn] at this
    exact Bool.false_ne_true this
  have hs : ∀ w ∈ sorted_wheels wheels, w.filename.isSome ∧ w.url.isSome :=
    fun w hw => h w ((sorted_wheels_perm wheels).mem_iff.mp hw)
  rw [if_neg (by rw [hnone]; exact Bool.false_ne_true)]
  rw [addLines_ok (sorted_wheels wheels) (pkgHeader package_name) hs]

theorem generate_package_index_err (package_name : String) (wheels : List Wheel)
    (h : ¬ ∀ w ∈ wheels, w.filename.isSome ∧ w.url.isSome) :
    generate_package_index package_name wheels = Except.error () := by
  unfold generate_package_index
  push_neg at h
  obtain ⟨w, hw, hwbad⟩ := h
  by_cases hf : wheels.any fun w => w.filename.isNone
  · rw [if_pos hf]
  · rw [if_neg hf]
    have hbad : ∃ v ∈ sorted_wheels wheels, ¬(v.filename.isSome ∧ v.url.isSome) :=
      ⟨w, (sorted_wheels_perm wheels).mem_iff.mpr hw, fun hc => hwbad hc.1 hc.2⟩
    rw [addLines_err (sorted_wheels wheels) (pkgHeader package_name) hbad]

instance : IsTotal String nameAsc := by
  constructor
  intro a b
  unfold nameAsc
  rw [Bool.eq_false_iff, Bool.eq_false_iff]
  rcases pyStrLt_total a b with h | h | h
  · exact Or.inl fun h2 => pyStrLt_asymm _ _ h h2
  · refine Or.inl fun h2 => ?_
    rw [h] at h2
    exact pyStrLt_asymm _ _ h2 h2
  · exact Or.inr fun h2 => pyStrLt_asymm _ _ h2 h

instance : IsTrans String nameAsc := by
  constructor
  intro a b c hab hbc
  unfold nameAsc at hab hbc ⊢
  rw [Bool.eq_false_iff] at hab hbc ⊢
  intro hac
  rcases pyStrLt_total b c with h1 | h1 | h1
  · exact hab (pyStrLt_trans _ _ _ h1 hac)
  · rw [← h1] at hac
    exact hab hac
  · exact hbc h1

theorem generate_package_index_keys (package_name : String) (wheels : List Wheel)
    (html : String) (h : generate_package_index package_name wheels = Except.ok html) :
    ∀ w ∈ wheels, w.filename.isSome ∧ w.url.isSome := by
  by_contra hc
  rw [generate_package_index_err package_name wheels hc] at h
  exact absurd h (by simp)

theorem any_eq_of_perm {α : Type} {l l' : List α} (h : l.Perm l') (p : α → Bool) :
    l.any p = l'.any p := by
  rcases hl : l.any p with _ | _
  · symm
    rw [Bool.eq_false_iff]
    intro hc
    obtain ⟨x, hx, hp⟩ := List.any_eq_true.mp hc
    exact absurd (List.any_eq_true.mpr ⟨x, h.mem_iff.mpr hx, hp⟩)
      (by rw [hl]; exact Bool.false_ne_true)
  · obtain ⟨x, hx, hp⟩ := List.any_eq_true.mp hl
    exact (List.any_eq_true.mpr ⟨x, h.mem_iff.mp hx, hp⟩).symm

theorem sorted_wheels_strict (l : List Wheel) (hl : (l.map wheelKey).Nodup) :
    (sorted_wheels l).Pairwise fun a b => pyPairLt (wheelKey b) (wheelKey a) = true := by
  have h1 : (sorted_wheels l).Pairwise wheelDesc := sorted_wheels_sorted l
  have hnodup : ((sorted_wheels l).map wheelKey).Nodup :=
    (((sorted_wheels_perm l).map wheelKey).nodup_iff).mpr hl
  have h2 : (sorted_wheels l).Pairwise fun a b => wheelKey a ≠ wheelKey b :=
    List.pairwise_map.mp hnodup
  refine (h1.and h2).imp ?_
  rintro a b ⟨hd, hne⟩
  rcases pyPairLt_total (wheelKey a) (wheelKey b) with h | h | h
  · rw [wheelDesc] at hd
    rw [hd] at h
    exact absurd h Bool.false_ne_true
  · exact absurd h hne
  · exact h

theorem sorted_wheels_eq_of_perm (ws ws' : List Wheel) (hperm : ws.Perm ws')
    (hnd : (ws.map wheelKey).Nodup) : sorted_wheels ws = sorted_wheels ws' := by
  have hnd' : (ws'.map wheelKey).Nodup := ((hperm.map wheelKey).nodup_iff).mp hnd
  have hanti : IsAntisymm Wheel fun a b => pyPairLt (wheelKey b) (wheelKey a) = true :=
    ⟨fun a b h1 h2 => (pyPairLt_asymm _ _ h1 h2).elim⟩
  have hp : (sorted_wheels ws).Perm (sorted_wheels ws') :=
    ((sorted_wheels_perm ws).trans hperm).trans (sorted_wheels_perm ws').symm
  exact @List.eq_of_perm_of_sorted _ _ hanti _ _ hp
    (sorted_wheels_strict ws hnd) (sorted_wheels_strict ws' hnd')

/-! ### The claims -/

/-- C2: for every string input (including the empty string), `normalize_name`
returns the lowercased input with every `'_'` and every `'.'` replaced by
`'-'`, character by character, altering no other characters and never
collapsing separator runs (lowercasing leaves the separators fixed and no
character's lowercase image contains one, so the replaced hyphens are
exactly the input's separators); it is total, and
`normalize_name "Foo_Bar.Baz" = "foo-bar-baz"`, `normalize_name "" = ""`. -/
theorem C2_normalize_name_spec :
    (∀ s : String, (normalize_name s).data
        = (s.data.flatMap pyLowerChar).map fun c => if c = '_' ∨ c = '.' then '-' else c)
    ∧ pyLowerChar '_' = ['_'] ∧ pyLowerChar '.' = ['.']
    ∧ (∀ c : Char, '_' ∈ pyLowerChar c ∨ '.' ∈ pyLowerChar c → c = '_' ∨ c = '.')
    ∧ normalize_name "Foo_Bar.Baz" = "foo-bar-baz"
    ∧ normalize_name "" = "" :=
  ⟨fun s => normalize_name_data s, pyLowerChar_underscore, pyLowerChar_period,
   pyLowerChar_sep, by decide, rfl⟩

/-- Witness for C2's reverse-separator conjunct at the concrete character
`'_'`. -/
theorem C2_normalize_name_spec_witness :
    ('_' ∈ pyLowerChar '_' ∨ '.' ∈ pyLowerChar '_')
    ∧ (('_' : Char) = '_' ∨ ('_' : Char) = '.') :=
  ⟨Or.inl (by decide), C2_normalize_name_spec.2.2.2.1 '_' (Or.inl (by decide))⟩

/-- C3: `normalize_name` is idempotent:
`normalize_name (normalize_name x) = normalize_name x` for every string. -/
theorem C3_normalize_name_idempotent (s : String) :
    normalize_name (normalize_name s) = normalize_name s := by
  apply String.ext
  rw [normalize_name_data, normalize_name_data]
  have himg : ∀ d ∈ (s.data.flatMap pyLowerChar).map normChar,
      pyLowerChar d = [d] ∧ normChar d = d := by
    intro d hd
    obtain ⟨e, he, rfl⟩ := List.mem_map.mp hd
    obtain ⟨c, _, he2⟩ := List.mem_flatMap.mp he
    by_cases hsep : e = '_' ∨ e = '.'
    · have h1 : normChar e = '-' := by
        unfold normChar
        rw [if_pos hsep]
      rw [h1]
      exact ⟨pyLowerChar_hyphen, rfl⟩
    · have h1 : normChar e = e := by
        unfold normChar
        rw [if_neg hsep]
      rw [h1]
      exact ⟨pyLowerChar_fixed c e he2, h1⟩
  rw [flatMap_eq_self _ (fun x hx => (himg x hx).1)]
  have h2 : ∀ d ∈ (s.data.flatMap pyLowerChar).map normChar, normChar d = id d :=
    fun d hd => (himg d hd).2
  rw [List.map_congr_left h2, List.map_id]

/-- C9: when the manifest parses but lists no packages (either the
`'packages'` key is absent or it maps to an empty object), the run continues:
the warning is emitted, the root index file is still written, the root
document contains zero anchor tags, and the driver exits with status zero. -/
theorem C9_empty_manifest :
    (Script.main (ManifestFile.parsed none)).warned = true
    ∧ (Script.main (ManifestFile.parsed (some []))).warned = true
    ∧ (Script.main (ManifestFile.parsed none)).exitCode = 0
    ∧ (Script.main (ManifestFile.parsed (some []))).exitCode = 0
    ∧ (Script.main (ManifestFile.parsed none)).files
        = [("index/index.html", generate_root_index [])]
    ∧ (Script.main (ManifestFile.parsed (some []))).files
        = [("index/index.html", generate_root_index [])]
    ∧ ¬ ("<a".data <:+: (generate_root_index []).data) := by
  refine ⟨rfl, rfl, rfl, rfl, rfl, rfl, by decide⟩

theorem pyStrLt_empty_left (s : String) (h : s ≠ "") : pyStrLt "" s = true := by
  unfold pyStrLt
  cases hd : s.data with
  | nil => exact absurd (String.ext hd) h
  | cons c cs => rfl

theorem pyStrLt_empty_right (s : String) : pyStrLt s "" = false := by
  unfold pyStrLt
  cases hd : s.data with
  | nil => rfl
  | cons c cs => rfl

/-- C1: `generate_package_index` sorts wheels by the string tuple
`(upload_date, filename)` in descending lexicographic order (plain string
comparison): the sorted list is a permutation of the input, pairwise
descending on keys; a missing `upload_date` keys exactly like the empty
string and strictly after every wheel with a non-empty date; with equal
dates the tie-break is reverse lexicographic on filename, so
`"a-1.0b.whl"` is listed before `"a-1.0.whl"`. -/
theorem C1_wheel_sort_order :
    (∀ wheels : List Wheel, (sorted_wheels wheels).Perm wheels)
    ∧ (∀ wheels : List Wheel,
        (sorted_wheels wheels).Pairwise fun w v => pyPairLt (wheelKey w) (wheelKey v) = false)
    ∧ (∀ w : Wheel, w.upload_date = none →
        wheelKey w = wheelKey { w with upload_date := some "" })
    ∧ (∀ w v : Wheel, w.upload_date.getD "" ≠ "" → v.upload_date.getD "" = "" →
        pyPairLt (wheelKey v) (wheelKey w) = true
          ∧ pyPairLt (wheelKey w) (wheelKey v) = false)
    ∧ sorted_wheels
        [⟨some "a-1.0.whl", some "u1", none, some "2024-01-01"⟩,
         ⟨some "a-2.0.whl", some "u2", none, some "2024-06-01"⟩]
        = [⟨some "a-2.0.whl", some "u2", none, some "2024-06-01"⟩,
           ⟨some "a-1.0.whl", some "u1", none, some "2024-01-01"⟩]
    ∧ sorted_wheels
        [⟨some "a-1.0.whl", some "u1", none, some "2024-01-01"⟩,
         ⟨some "a-1.0b.whl", some "u2", none, some "2024-01-01"⟩]
        = [⟨some "a-1.0b.whl", some "u2", none, some "2024-01-01"⟩,
           ⟨some "a-1.0.whl", some "u1", none, some "2024-01-01"⟩] := by
  refine ⟨sorted_wheels_perm, sorted_wheels_sorted, ?_, ?_, by decide, by decide⟩
  · intro w h
    simp [wheelKey, h]
  · intro w v hw hv
    constructor
    · have h1 : pyStrLt "" (w.upload_date.getD "") = true := pyStrLt_empty_left _ hw
      simp [pyPairLt, wheelKey, hv, h1]
    · have h2 : pyStrLt (w.upload_date.getD "") "" = false := pyStrLt_empty_right _
      simp [pyPairLt, wheelKey, hv, h2, hw]

/-- Witness for C1 at concrete wheels: a wheel dated `"2024-06-01"` keys
strictly before an undated one, and an undated wheel keys like one dated
`""`. -/
theorem C1_wheel_sort_order_witness :
    wheelKey ⟨some "a.whl", some "u", none, none⟩
      = wheelKey { (⟨some "a.whl", some "u", none, none⟩ : Wheel) with upload_date := some "" }
    ∧ (pyPairLt (wheelKey ⟨some "b.whl", some "u", none, none⟩)
          (wheelKey ⟨some "a.whl", some "u", none, some "2024-06-01"⟩) = true
        ∧ pyPairLt (wheelKey ⟨some "a.whl", some "u", none, some "2024-06-01"⟩)
            (wheelKey ⟨some "b.whl", some "u", none, none⟩) = false) :=
  ⟨C1_wheel_sort_order.2.2.1 _ rfl,
   C1_wheel_sort_order.2.2.2.1 _ _ (by decide) (by decide)⟩

/-- C10: `generate_package_index` succeeds exactly when every wheel record
has both required keys `'filename'` and `'url'`; any record missing one of
them raises `KeyError` (modelled by `Except.error ()`), while the optional
`'sha256'` and `'upload_date'` keys merely default to the empty string. -/
theorem C10_required_keys (package_name : String) (wheels : List Wheel) :
    ((∃ html, generate_package_index package_name wheels = Except.ok html)
      ↔ ∀ w ∈ wheels, w.filename.isSome ∧ w.url.isSome)
    ∧ ((¬ ∀ w ∈ wheels, w.filename.isSome ∧ w.url.isSome) →
        generate_package_index package_name wheels = Except.error ())
    ∧ (∀ w : Wheel, wheelLine { w with sha256 := none }
        = wheelLine { w with sha256 := some "" })
    ∧ (∀ w : Wheel, wheelKey { w with upload_date := none }
        = wheelKey { w with upload_date := some "" }) := by
  refine ⟨⟨?_, fun h => ⟨_, generate_package_index_ok package_name wheels h⟩⟩,
    generate_package_index_err package_name wheels, fun w => ?_, fun w => ?_⟩
  · rintro ⟨html, hh⟩
    exact generate_package_index_keys package_name wheels html hh
  · cases hf : w.filename <;> cases hu : w.url <;> simp [wheelLine, hf, hu]
  · simp [wheelKey]

/-- Witness for C10: a wheel with both keys generates a page; one missing
`'url'` raises. -/
theorem C10_required_keys_witness :
    (∃ html, generate_package_index "p" [⟨some "a.whl", some "u", none, none⟩]
      = Except.ok html)
    ∧ generate_package_index "p" [⟨some "a.whl", none, none, none⟩]
      = Except.error () :=
  ⟨(C10_required_keys "p" _).1.mpr (by decide),
   (C10_required_keys "p" _).2.1 (by decide)⟩

/-- C4: when generation succeeds, the page body is exactly one anchor line
per wheel in sorted order, and each wheel's anchor has href equal to the
escaped URL followed by a `#sha256=<hex>` fragment exactly when a non-empty
`sha256` is present (absent or empty `sha256` leaves the href bare), with
the escaped filename as link text. -/
theorem C4_wheel_anchors (package_name : String) (wheels : List Wheel) (html : String)
    (hgen : generate_package_index package_name wheels = Except.ok html) :
    html = pkgHeader package_name
        ++ String.join ((sorted_wheels wheels).map lineOf) ++ htmlFooter
    ∧ ∀ w ∈ wheels, ∃ filename url,
        w.filename = some filename ∧ w.url = some url
        ∧ (lineOf w).data <:+: html.data
        ∧ lineOf w = "    <a href=\"" ++ escape url ++ hash_suffix (w.sha256.getD "")
            ++ "\">" ++ escape filename ++ "</a><br>\n"
        ∧ (w.sha256.getD "" ≠ "" →
            hash_suffix (w.sha256.getD "") = "#sha256=" ++ w.sha256.getD "")
        ∧ (w.sha256.getD "" = "" → hash_suffix (w.sha256.getD "") = "") := by
  have hok := generate_package_index_keys package_name wheels html hgen
  have hh := generate_package_index_ok package_name wheels hok
  rw [hgen] at hh
  have hhtml := Except.ok.inj hh
  refine ⟨hhtml, fun w hw => ?_⟩
  obtain ⟨filename, hf⟩ := Option.isSome_iff_exists.mp (hok w hw).1
  obtain ⟨url, hu⟩ := Option.isSome_iff_exists.mp (hok w hw).2
  have hmem : lineOf w ∈ (sorted_wheels wheels).map lineOf :=
    List.mem_map_of_mem lineOf ((sorted_wheels_perm wheels).mem_iff.mpr hw)
  have hinf : (lineOf w).data <:+: html.data := by
    rw [hhtml, String.data_append, String.data_append]
    exact (mem_data_infix_join hmem).trans
      ⟨(pkgHeader package_name).data, htmlFooter.data, rfl⟩
  refine ⟨filename, url, hf, hu, hinf, ?_, fun h => by rw [hash_suffix, if_pos h],
    fun h => by rw [hash_suffix, if_neg (fun hc => hc h)]⟩
  unfold lineOf
  rw [hf, hu]
  rfl

/-- Witness for C4 at a concrete wheel carrying a sha256 value. -/
theorem C4_wheel_anchors_witness :
    (pkgHeader "p"
        ++ String.join ((sorted_wheels [⟨some "a.whl", some "u", some "abc123", none⟩]).map lineOf)
        ++ htmlFooter)
      = pkgHeader "p"
        ++ String.join ((sorted_wheels [⟨some "a.whl", some "u", some "abc123", none⟩]).map lineOf)
        ++ htmlFooter
    ∧ ∀ w ∈ ([⟨some "a.whl", some "u", some "abc123", none⟩] : List Wheel), ∃ filename url,
        w.filename = some filename ∧ w.url = some url
        ∧ (lineOf w).data <:+:
            (pkgHeader "p"
              ++ String.join ((sorted_wheels [⟨some "a.whl", some "u", some "abc123", none⟩]).map lineOf)
              ++ htmlFooter).data
        ∧ lineOf w = "    <a href=\"" ++ escape url ++ hash_suffix (w.sha256.getD "")
            ++ "\">" ++ escape filename ++ "</a><br>\n"
        ∧ (w.sha256.getD "" ≠ "" →
            hash_suffix (w.sha256.getD "") = "#sha256=" ++ w.sha256.getD "")
        ∧ (w.sha256.getD "" = "" → hash_suffix (w.sha256.getD "") = "") :=
  C4_wheel_anchors "p" [⟨some "a.whl", some "u", some "abc123", none⟩] _ rfl

/-- C6: the root index lists the package display names in ascending plain
string order, emitting exactly one anchor per package whose link target is
the normalized name followed by `"/"` and whose link text is the escaped
display name; in particular `"My_Pkg"` links to `"my-pkg/"`. -/
theorem C6_root_index (packages : List (String × PackageData)) :
    generate_root_index packages
      = rootHeader ++ String.join ((sorted_packages packages).map rootLine) ++ htmlFooter
    ∧ (sorted_packages packages).Perm (packages.map Prod.fst)
    ∧ ((sorted_packages packages).Pairwise fun a b => pyStrLt b a = false)
    ∧ (sorted_packages packages).length = packages.length
    ∧ (∀ name, rootLine name
        = "    <a href=\"" ++ normalize_name name ++ "/\">" ++ escape name ++ "</a><br>\n")
    ∧ normalize_name "My_Pkg" ++ "/" = "my-pkg/" := by
  refine ⟨rfl, List.perm_insertionSort nameAsc (packages.map Prod.fst),
    List.sorted_insertionSort nameAsc (packages.map Prod.fst), ?_, fun _ => rfl, by decide⟩
  rw [sorted_packages, List.length_insertionSort, List.length_map]

/-- C5 as stated is false: the root index embeds the normalized display name
in the link target (`href`) without escaping.  For the display name `"a<b"`
the generated root document contains one more raw `'<'` than for the
same-length name `"avb"`, and the unescaped substring `href="a<b/"` occurs
in it, i.e. a raw `'<'` originating from the display name sits inside a
link target. -/
theorem C5_counterexample :
    countChar '<' (generate_root_index [("a<b", PackageData.mk none)])
      = countChar '<' (generate_root_index [("avb", PackageData.mk none)]) + 1
    ∧ ("href=\"a<b/\"").data <:+: (generate_root_index [("a<b", PackageData.mk none)]).data := by
  constructor
  · decide
  · decide

/-- C5 amended: dynamic text routed through the escaper is safe — the raw
`'<'` and `'>'` counts of a package page do not depend on the display name,
and escaping a string yields no `'<'`, `'>'` or `'"'` at all — but in the
root index only the link text is escaped; the link target is the raw
normalized name. -/
theorem C5_escaping (name₁ name₂ : String) (wheels : List Wheel) (h₁ h₂ : String)
    (hg₁ : generate_package_index name₁ wheels = Except.ok h₁)
    (hg₂ : generate_package_index name₂ wheels = Except.ok h₂) :
    countChar '<' h₁ = countChar '<' h₂
    ∧ countChar '>' h₁ = countChar '>' h₂
    ∧ (∀ s : String, countChar '<' (escape s) = 0 ∧ countChar '>' (escape s) = 0
        ∧ countChar '"' (escape s) = 0)
    ∧ (∀ name, rootLine name
        = "    <a href=\"" ++ normalize_name name ++ "/\">" ++ escape name ++ "</a><br>\n") := by
  have hok₁ := generate_package_index_keys name₁ wheels h₁ hg₁
  have e₁ := generate_package_index_ok name₁ wheels hok₁
  rw [hg₁] at e₁
  have e₂ := generate_package_index_ok name₂ wheels hok₁
  rw [hg₂] at e₂
  have hh₁ := Except.ok.inj e₁
  have hh₂ := Except.ok.inj e₂
  refine ⟨?_, ?_, fun s =>
      ⟨countChar_escape (Or.inl rfl) s, countChar_escape (Or.inr (Or.inl rfl)) s,
       countChar_escape (Or.inr (Or.inr rfl)) s⟩,
    fun _ => rfl⟩
  · rw [hh₁, hh₂, countChar_append, countChar_append, countChar_append, countChar_append,
      countChar_pkgHeader (Or.inl rfl) name₁ name₂]
  · rw [hh₁, hh₂, countChar_append, countChar_append, countChar_append, countChar_append,
      countChar_pkgHeader (Or.inr (Or.inl rfl)) name₁ name₂]

/-- Witness for C5 (amended) at two concrete names and one wheel. -/
theorem C5_escaping_witness :
    countChar '<' (pkgHeader "x"
        ++ String.join ((sorted_wheels [⟨some "a.whl", some "u", none, none⟩]).map lineOf)
        ++ htmlFooter)
      = countChar '<' (pkgHeader "y<z"
        ++ String.join ((sorted_wheels [⟨some "a.whl", some "u", none, none⟩]).map lineOf)
        ++ htmlFooter)
    ∧ countChar '>' (pkgHeader "x"
        ++ String.join ((sorted_wheels [⟨some "a.whl", some "u", none, none⟩]).map lineOf)
        ++ htmlFooter)
      = countChar '>' (pkgHeader "y<z"
        ++ String.join ((sorted_wheels [⟨some "a.whl", some "u", none, none⟩]).map lineOf)
        ++ htmlFooter)
    ∧ (∀ s : String, countChar '<' (escape s) = 0 ∧ countChar '>' (escape s) = 0
        ∧ countChar '"' (escape s) = 0)
    ∧ (∀ name, rootLine name
        = "    <a href=\"" ++ normalize_name name ++ "/\">" ++ escape name ++ "</a><br>\n") :=
  C5_escaping "x" "y<z" [⟨some "a.whl", some "u", none, none⟩] _ _ rfl rfl

/-- C7 as stated is false: with two wheels sharing the same sort key
`(upload_date, filename)` but different URLs, swapping them swaps the
emitted anchors (the sort is stable), so the two documents differ. -/
theorem C7_counterexample :
    ([⟨some "a.whl", some "u1", none, none⟩, ⟨some "a.whl", some "u2", none, none⟩]
        : List Wheel).Perm
      [⟨some "a.whl", some "u2", none, none⟩, ⟨some "a.whl", some "u1", none, none⟩]
    ∧ generate_package_index "p"
        [⟨some "a.whl", some "u1", none, none⟩, ⟨some "a.whl", some "u2", none, none⟩]
      ≠ generate_package_index "p"
        [⟨some "a.whl", some "u2", none, none⟩, ⟨some "a.whl", some "u1", none, none⟩] :=
  ⟨List.Perm.swap _ _ _, by decide⟩

/-- C7 amended: `generate_package_index` is insensitive to the order of its
wheel list whenever no two wheels share the same `(upload_date, filename)`
sort key: permuting such a list leaves the generated document unchanged. -/
theorem C7_perm_insensitive (package_name : String) (ws wsp : List Wheel)
    (hperm : ws.Perm wsp) (hnd : (ws.map wheelKey).Nodup) :
    generate_package_index package_name ws = generate_package_index package_name wsp := by
  unfold generate_package_index
  rw [any_eq_of_perm hperm, sorted_wheels_eq_of_perm ws wsp hperm hnd]

/-- Witness for C7 (amended): two wheels with distinct filenames, listed in
both orders. -/
theorem C7_perm_insensitive_witness :
    generate_package_index "p"
        [⟨some "a.whl", some "u1", none, none⟩, ⟨some "b.whl", some "u2", none, none⟩]
      = generate_package_index "p"
        [⟨some "b.whl", some "u2", none, none⟩, ⟨some "a.whl", some "u1", none, none⟩] :=
  C7_perm_insensitive "p" _ _ (List.Perm.swap _ _ _) (by decide)

theorem writePackages_ok :
    ∀ l : List (String × PackageData),
      (∀ p ∈ l, ∀ w ∈ p.2.wheels.getD [], w.filename.isSome ∧ w.url.isSome) →
      ∃ fs, writePackages l = Except.ok fs
  | [], _ => ⟨[], rfl⟩
  | (package_name, package_data) :: rest, h => by
    have h1 : ∀ w ∈ package_data.wheels.getD [], w.filename.isSome ∧ w.url.isSome :=
      fun w hw => h (package_name, package_data) (List.mem_cons_self _ _) w hw
    obtain ⟨fs, hfs⟩ :=
      writePackages_ok rest (fun p hp => h p (List.mem_cons_of_mem _ hp))
    refine ⟨("index/" ++ normalize_name package_name ++ "/index.html",
        pkgHeader package_name
          ++ String.join ((sorted_wheels (package_data.wheels.getD [])).map lineOf)
          ++ htmlFooter) :: fs, ?_⟩
    rw [writePackages, generate_package_index_ok package_name _ h1]
    show (match writePackages rest with
      | Except.error fs =>
        Except.error (("index/" ++ normalize_name package_name ++ "/index.html", _) :: fs)
      | Except.ok fs =>
        Except.ok (("index/" ++ normalize_name package_name ++ "/index.html", _) :: fs)) = _
    rw [hfs]

theorem writePackages_err :
    ∀ l : List (String × PackageData),
      (¬ ∀ p ∈ l, ∀ w ∈ p.2.wheels.getD [], w.filename.isSome ∧ w.url.isSome) →
      ∃ fs, writePackages l = Except.error fs
  | [], h => absurd (fun p hp => absurd hp (List.not_mem_nil p)) h
  | (package_name, package_data) :: rest, h => by
    by_cases hw : ∀ w ∈ package_data.wheels.getD [], w.filename.isSome ∧ w.url.isSome
    · have hrest : ¬ ∀ p ∈ rest, ∀ w ∈ p.2.wheels.getD [],
          w.filename.isSome ∧ w.url.isSome := by
        intro hc
        apply h
        intro q hq
        rcases List.mem_cons.mp hq with rfl | hq
        · exact hw
        · exact hc q hq
      obtain ⟨fs, hfs⟩ := writePackages_err rest hrest
      refine ⟨("index/" ++ normalize_name package_name ++ "/index.html",
          pkgHeader package_name
            ++ String.join ((sorted_wheels (package_data.wheels.getD [])).map lineOf)
            ++ htmlFooter) :: fs, ?_⟩
      rw [writePackages, generate_package_index_ok package_name _ hw]
      show (match writePackages rest with
        | Except.error fs =>
          Except.error (("index/" ++ normalize_name package_name ++ "/index.html",
            pkgHeader package_name
              ++ String.join ((sorted_wheels (package_data.wheels.getD [])).map lineOf)
              ++ htmlFooter) :: fs)
        | Except.ok fs =>
          Except.ok (("index/" ++ normalize_name package_name ++ "/index.html",
            pkgHeader package_name
              ++ String.join ((sorted_wheels (package_data.wheels.getD [])).map lineOf)
              ++ htmlFooter) :: fs)) = _
      rw [hfs]
    · refine ⟨[], ?_⟩
      rw [writePackages, generate_package_index_err package_name _ hw]

/-- C8 as stated is false of the code: a manifest that is present and parses,
but whose single wheel record lacks the required `'url'` key, makes
`generate_package_index` raise `KeyError`; the exception escapes `main` and
the process exits non-zero although the manifest was neither absent nor
unparsable. -/
theorem C8_counterexample :
    (Script.main (ManifestFile.parsed
        (some [("p", PackageData.mk (some [⟨some "a.whl", none, none, none⟩]))]))).exitCode = 1
    ∧ ManifestFile.parsed (some [("p", PackageData.mk (some [⟨some "a.whl", none, none, none⟩]))])
        ≠ ManifestFile.absent
    ∧ ManifestFile.parsed (some [("p", PackageData.mk (some [⟨some "a.whl", none, none, none⟩]))])
        ≠ ManifestFile.unparsable :=
  ⟨rfl, by decide, by decide⟩

/-- C8 amended: the driver's exit status is non-zero exactly when the
manifest file is absent, its contents are unparsable as JSON, or some wheel
record lacks a required key (`'filename'` or `'url'`, which raises
`KeyError`); in every other case, including a manifest whose packages map is
empty, the driver exits zero. -/
theorem C8_exit_status (m : ManifestFile) :
    (Script.main m).exitCode ≠ 0
      ↔ m = ManifestFile.absent ∨ m = ManifestFile.unparsable ∨ ¬ m.wheelsComplete := by
  cases m with
  | absent => simp [Script.main, ManifestFile.wheelsComplete]
  | unparsable => simp [Script.main, ManifestFile.wheelsComplete]
  | parsed packagesField =>
    by_cases hm : (ManifestFile.parsed packagesField).wheelsComplete
    · obtain ⟨fs, hfs⟩ := writePackages_ok (packagesField.getD []) hm
      have hrun : Script.main (ManifestFile.parsed packagesField)
          = ⟨0, (packagesField.getD []).isEmpty,
              ("index/index.html", generate_root_index (packagesField.getD [])) :: fs⟩ := by
        show (match writePackages (packagesField.getD []) with
          | Except.error fs =>
            (⟨1, (packagesField.getD []).isEmpty,
              ("index/index.html", generate_root_index (packagesField.getD [])) :: fs⟩ : RunResult)
          | Except.ok fs =>
            ⟨0, (packagesField.getD []).isEmpty,
              ("index/index.html", generate_root_index (packagesField.getD [])) :: fs⟩) = _
        rw [hfs]
      rw [hrun]
      simp [hm]
    · obtain ⟨fs, hfs⟩ := writePackages_err (packagesField.getD []) hm
      have hrun : Script.main (ManifestFile.parsed packagesField)
          = ⟨1, (packagesField.getD []).isEmpty,
              ("index/index.html", generate_root_index (packagesField.getD [])) :: fs⟩ := by
        show (match writePackages (packagesField.getD []) with
          | Except.error fs =>
            (⟨1, (packagesField.getD []).isEmpty,
              ("index/index.html", generate_root_index (packagesField.getD [])) :: fs⟩ : RunResult)
          | Except.ok fs =>
            ⟨0, (packagesField.getD []).isEmpty,
              ("index/index.html", generate_root_index (packagesField.getD [])) :: fs⟩) = _
        rw [hfs]
      rw [hrun]
      simp [hm]
